import Mathlib

/-!
# Verification of the proxima 2D physics engine core

A shallow embedding, over exact rational arithmetic, of the core of the
`proxima` rigid-body physics engine (C sources: `broad-phase.c` — spatial
hash, collision detection, rigid body and the contact solver — together
with `geometry.c` = `part_007`, `world.c` = `part_008` and the public
header `proxima.h` = `part_000`).

Conventions of the embedding:
* C `float`/`double` arithmetic is modelled by exact `ℚ` arithmetic; the
  numeric literals of the source are taken at their nominal decimal values.
* `sqrtf` is modelled by `ratSqrt`, which is exact whenever the argument is
  the square of a rational (which holds on every square root the concrete
  theorems below evaluate) and a floor approximation otherwise.
* `sinf`/`cosf` are modelled by `ratSin`/`ratCos`, fixed rational
  stand-ins (truncated Taylor polynomials) that agree with the real
  functions at angle 0 — the only angle the concrete theorems evaluate;
  no claim below depends on trigonometric values elsewhere.
* A C cast from a floating value to `int` truncates toward zero; `ctrunc`
  models it.
* Fallible constructors (`NULL` returns) become `Option`.
* stb_ds dynamic arrays/hash maps become lists; reads the C code performs
  past the end of the query scratch buffer (`queryResult[oldLength]`) and
  before its start (`queryResult[-1]`) are modelled by explicit `junk` and
  `junkNeg` parameters holding whatever those memory words contain.
-/

namespace Proxima

/-! ## Rational stand-ins for float helpers -/

/-- C cast of a real value to `int`: truncation toward zero. -/
def ctrunc (q : ℚ) : ℤ := if 0 ≤ q then ⌊q⌋ else ⌈q⌉

/-- Structural integer square root (digit-by-digit on base-4 digits; the
first argument is fuel, always sufficient at `fuel = n`). -/
def isqrtFuel : ℕ → ℕ → ℕ
  | 0, _ => 0
  | fuel + 1, n =>
    if n = 0 then 0
    else
      let r := 2 * isqrtFuel fuel (n / 4)
      if (r + 1) * (r + 1) ≤ n then r + 1 else r

/-- Floor integer square root. -/
def isqrt (n : ℕ) : ℕ := isqrtFuel n n

/-- Stand-in for `sqrtf`: exact on squares of rationals, floor
approximation otherwise, `0` on negative arguments (where `sqrtf` yields
NaN; no verified code path consumes that value). -/
def ratSqrt (q : ℚ) : ℚ :=
  if q ≤ 0 then 0
  else
    let n := q.num.toNat
    let d := q.den
    if isqrt n * isqrt n = n ∧ isqrt d * isqrt d = d then
      (isqrt n : ℚ) / (isqrt d : ℚ)
    else (isqrt (n * d) : ℚ) / (d : ℚ)

/-- Stand-in for `sinf`: the degree-7 Taylor polynomial, exact at 0. -/
def ratSin (x : ℚ) : ℚ := x - x ^ 3 / 6 + x ^ 5 / 120 - x ^ 7 / 5040

/-- Stand-in for `cosf`: the degree-6 Taylor polynomial, exact at 0. -/
def ratCos (x : ℚ) : ℚ := 1 - x ^ 2 / 2 + x ^ 4 / 24 - x ^ 6 / 720

/-- Exact value of the double constant `M_PI` (0x1.921fb54442d18p+1). -/
def ratPi : ℚ := 884279719003555 / 281474976710656

/-- Exact value of the float constant `FLT_MAX` ((2^24 − 1)·2^104). -/
def fltMax : ℚ := (2 ^ 24 - 1) * 2 ^ 104

/-! ## `proxima.h`: vectors and transforms -/

/-- `prVector2` (header `part_000`): a two-dimensional vector. -/
structure prVector2 where
  x : ℚ
  y : ℚ
  deriving DecidableEq, Repr

/-- `prAABB`: an axis-aligned bounding box. -/
structure prAABB where
  x : ℚ
  y : ℚ
  width : ℚ
  height : ℚ
  deriving DecidableEq, Repr

/-- `prTransform`: position, cached rotation `(sin, cos)` and angle. -/
structure prTransform where
  position : prVector2
  rotSin : ℚ
  rotCos : ℚ
  angle : ℚ
  deriving DecidableEq, Repr

def prVector2Add (v1 v2 : prVector2) : prVector2 := ⟨v1.x + v2.x, v1.y + v2.y⟩

def prVector2Subtract (v1 v2 : prVector2) : prVector2 := ⟨v1.x - v2.x, v1.y - v2.y⟩

def prVector2Negate (v : prVector2) : prVector2 := ⟨-v.x, -v.y⟩

def prVector2ScalarMultiply (v : prVector2) (k : ℚ) : prVector2 := ⟨v.x * k, v.y * k⟩

def prVector2Dot (v1 v2 : prVector2) : ℚ := v1.x * v2.x + v1.y * v2.y

def prVector2Cross (v1 v2 : prVector2) : ℚ := v1.x * v2.y - v1.y * v2.x

def prVector2MagnitudeSqr (v : prVector2) : ℚ := v.x * v.x + v.y * v.y

def prVector2Magnitude (v : prVector2) : ℚ := ratSqrt (prVector2MagnitudeSqr v)

def prVector2DistanceSqr (v1 v2 : prVector2) : ℚ :=
  (v2.x - v1.x) * (v2.x - v1.x) + (v2.y - v1.y) * (v2.y - v1.y)

def prVector2Normalize (v : prVector2) : prVector2 :=
  let magnitude := prVector2Magnitude v
  if 0 < magnitude then prVector2ScalarMultiply v (1 / magnitude) else v

def prVector2LeftNormal (v : prVector2) : prVector2 := prVector2Normalize ⟨-v.y, v.x⟩

def prVector2RightNormal (v : prVector2) : prVector2 := prVector2Normalize ⟨v.y, -v.x⟩

/-- `prVector2Rotate`. -/
def prVector2Rotate (v : prVector2) (angle : ℚ) : prVector2 :=
  let s := ratSin angle
  let c := ratCos angle
  ⟨v.x * c - v.y * s, v.x * s + v.y * c⟩

def prVector2RotateTx (v : prVector2) (tx : prTransform) : prVector2 :=
  ⟨v.x * tx.rotCos - v.y * tx.rotSin, v.x * tx.rotSin + v.y * tx.rotCos⟩

def prVector2Transform (v : prVector2) (tx : prTransform) : prVector2 :=
  ⟨tx.position.x + (v.x * tx.rotCos - v.y * tx.rotSin),
   tx.position.y + (v.x * tx.rotSin + v.y * tx.rotCos)⟩

/-- `prVector2CounterClockwise`: sign of the orientation of `v1 v2 v3`. -/
def prVector2CounterClockwise (v1 v2 v3 : prVector2) : ℤ :=
  let lhs := (v2.y - v1.y) * (v3.x - v1.x)
  let rhs := (v3.y - v1.y) * (v2.x - v1.x)
  (if rhs < lhs then 1 else 0) - (if lhs < rhs then 1 else 0)

/-- `PR_GEOMETRY_PIXELS_PER_UNIT`. -/
def pixelsPerUnit : ℚ := 16

/-- `PR_GEOMETRY_MAX_VERTEX_COUNT`. -/
def maxVertexCount : ℕ := 8

/-- `PR_WORLD_BAUMGARTE_FACTOR`. -/
def baumgarteFactor : ℚ := 24 / 100

/-- `PR_WORLD_BAUMGARTE_SLOP`. -/
def baumgarteSlop : ℚ := 1 / 100

/-- `PR_WORLD_ITERATION_COUNT`. -/
def iterationCount : ℕ := 12

/-- `PR_WORLD_MAX_OBJECT_COUNT`. -/
def maxObjectCount : ℕ := 4096

def prPixelsToUnits (k : ℚ) : ℚ := if 0 < pixelsPerUnit then k / pixelsPerUnit else 0

def prVector2PixelsToUnits (v : prVector2) : prVector2 :=
  if 0 < pixelsPerUnit then prVector2ScalarMultiply v (1 / pixelsPerUnit) else ⟨0, 0⟩

/-! ## `broad-phase.c`: the spatial hash

The hash maps an integer cell `(x, y)` to the list of `int` values inserted
into that cell, in insertion order.  The C struct also caches
`inverseCellSize = 1.0f / cellSize`; over `ℚ` that is `cellSize⁻¹`. -/

structure prSpatialHash where
  cellSize : ℚ
  entries : ℤ × ℤ → List ℤ

/-- `prCreateSpatialHash`: `NULL` for a non-positive cell size. -/
def prCreateSpatialHash (cellSize : ℚ) : Option prSpatialHash :=
  if cellSize ≤ 0 then none else some ⟨cellSize, fun _ => []⟩

/-- `prClearSpatialHash`: every per-cell list is truncated to length 0. -/
def prClearSpatialHash (sh : prSpatialHash) : prSpatialHash :=
  { sh with entries := fun _ => [] }

/-- `prInsertToSpatialHash`: the value is appended to every cell `(x, y)`
with `minX ≤ x ≤ maxX` and `minY ≤ y ≤ maxY`, the bounds being the C
`int` casts (truncation toward zero) of the AABB corners over the cell
size. -/
def prInsertToSpatialHash (sh : prSpatialHash) (key : prAABB) (value : ℤ) :
    prSpatialHash :=
  let inverseCellSize := 1 / sh.cellSize
  let minX := ctrunc (key.x * inverseCellSize)
  let minY := ctrunc (key.y * inverseCellSize)
  let maxX := ctrunc ((key.x + key.width) * inverseCellSize)
  let maxY := ctrunc ((key.y + key.height) * inverseCellSize)
  { sh with
    entries := fun c =>
      if minX ≤ c.1 ∧ c.1 ≤ maxX ∧ minY ≤ c.2 ∧ c.2 ≤ maxY then
        sh.entries c ++ [value]
      else sh.entries c }

/-- The cells `lo, lo+1, …, hi` a `for (c = lo; c <= hi; c++)` loop visits. -/
def cellRange (lo hi : ℤ) : List ℤ :=
  (List.range (hi + 1 - lo).toNat).map (fun i => lo + (i : ℤ))

/-- The compaction loop of `prQuerySpatialHash`: of the sorted buffer it
keeps `a[i]` whenever `a[i] != a[i + 1]`; at the last element the read
`a[oldLength]` is one past the end of the buffer and yields whatever that
memory word holds (`junk`). -/
def cDedupKeep : List ℤ → ℤ → List ℤ
  | [], _ => []
  | [a], junk => if a ≠ junk then [a] else []
  | a :: b :: t, junk => (if a ≠ b then [a] else []) ++ cDedupKeep (b :: t) junk

/-- The sort-then-deduplicate step of `prQuerySpatialHash` on the collected
buffer (skipped when at most one value was collected).  After the
compaction loop the code compares `queryResult[newLength - 1]` with
`queryResult[oldLength - 1]` and appends the latter when they differ; when
the loop kept nothing, `queryResult[-1]` is read from before the buffer
(`junkNeg`). -/
def cDedup (l : List ℤ) (junk junkNeg : ℤ) : List ℤ :=
  if l.length ≤ 1 then l
  else
    let kept := cDedupKeep l junk
    let lastKept := kept.getLastD junkNeg
    let lastOld := l.getLastD 0
    if lastKept ≠ lastOld then kept ++ [lastOld] else kept

/-- `prQuerySpatialHash`: collect the values of every cell the query AABB
covers (rows outer, columns inner), sort, deduplicate.  The returned list
is the sequence of values the callback `func` is invoked with, in order. -/
def prQuerySpatialHash (sh : prSpatialHash) (aabb : prAABB) (junk junkNeg : ℤ) :
    List ℤ :=
  let inverseCellSize := 1 / sh.cellSize
  let minX := ctrunc (aabb.x * inverseCellSize)
  let minY := ctrunc (aabb.y * inverseCellSize)
  let maxX := ctrunc ((aabb.x + aabb.width) * inverseCellSize)
  let maxY := ctrunc ((aabb.y + aabb.height) * inverseCellSize)
  let collected :=
    (cellRange minY maxY).flatMap fun y =>
      (cellRange minX maxX).flatMap fun x => sh.entries (x, y)
  cDedup (collected.insertionSort (· ≤ ·)) junk junkNeg

/-- Two AABBs overlap (spec §8: the closed rectangles intersect). -/
def prAABBsOverlap (a b : prAABB) : Prop :=
  a.x ≤ b.x + b.width ∧ b.x ≤ a.x + a.width ∧
  a.y ≤ b.y + b.height ∧ b.y ≤ a.y + a.height

end Proxima

namespace Proxima

/-! ## Query dedup lemmas -/

lemma getLastD_mem : ∀ (a : ℤ) (t : List ℤ) (d : ℤ), (a :: t).getLastD d ∈ a :: t
  | _, [], _ => by simp
  | a, b :: t, d => by
    rw [List.getLastD_cons]
    exact List.mem_cons_of_mem a (getLastD_mem b t d)

lemma mem_le_getLastD :
    ∀ {l : List ℤ}, l.Sorted (· ≤ ·) → ∀ {x : ℤ}, x ∈ l → ∀ (d : ℤ), x ≤ l.getLastD d
  | [], _, _, hx, _ => absurd hx (List.not_mem_nil _)
  | a :: t, h, x, hx, d => by
    cases t with
    | nil =>
      rw [List.mem_singleton] at hx
      simp [hx]
    | cons b t' =>
      rw [List.getLastD_cons]
      rcases List.mem_cons.mp hx with rfl | hx'
      · exact le_trans ((List.sorted_cons.mp h).1 _ (getLastD_mem b t' d))
          (le_refl _)
      · exact mem_le_getLastD (List.sorted_cons.mp h).2 hx' d

lemma cDedupKeep_subset :
    ∀ {l : List ℤ} {junk x : ℤ}, x ∈ cDedupKeep l junk → x ∈ l
  | [], _, _, hx => absurd hx (List.not_mem_nil _)
  | [a], junk, x, hx => by
    unfold cDedupKeep at hx
    split at hx
    · simpa using hx
    · simp at hx
  | a :: b :: t, junk, x, hx => by
    unfold cDedupKeep at hx
    rcases List.mem_append.mp hx with h1 | h2
    · split at h1
      · simp only [List.mem_singleton] at h1
        simp [h1]
      · simp at h1
    · exact List.mem_cons_of_mem a (cDedupKeep_subset h2)

lemma cDedupKeep_sorted_lt :
    ∀ {l : List ℤ}, l.Sorted (· ≤ ·) → ∀ (junk : ℤ),
      (cDedupKeep l junk).Sorted (· < ·)
  | [], _, _ => List.sorted_nil
  | [a], _, junk => by
    unfold cDedupKeep
    split <;> simp
  | a :: b :: t, h, junk => by
    unfold cDedupKeep
    have htail : (b :: t).Sorted (· ≤ ·) := (List.sorted_cons.mp h).2
    have ih := cDedupKeep_sorted_lt htail junk
    split
    · rename_i hab
      rw [List.singleton_append, List.sorted_cons]
      refine ⟨fun y hy => ?_, ih⟩
      have hyl : y ∈ b :: t := cDedupKeep_subset hy
      have hay : a ≤ b := (List.sorted_cons.mp h).1 b (List.mem_cons_self _ _)
      have hby : b ≤ y := by
        rcases List.mem_cons.mp hyl with rfl | hy'
        · exact le_refl _
        · exact (List.sorted_cons.mp htail).1 y hy'
      exact lt_of_lt_of_le (lt_of_le_of_ne hay hab) hby
    · simpa using ih

lemma cDedup_sorted_lt {l : List ℤ} (h : l.Sorted (· ≤ ·)) (junk junkNeg : ℤ) :
    (cDedup l junk junkNeg).Sorted (· < ·) := by
  unfold cDedup
  split
  · rename_i hlen
    match l, hlen with
    | [], _ => exact List.sorted_nil
    | [a], _ => exact List.sorted_singleton a
  · rename_i hlen
    have hkept : (cDedupKeep l junk).Sorted (· < ·) := cDedupKeep_sorted_lt h junk
    dsimp only
    split
    · rename_i hne
      show List.Pairwise (· < ·) (cDedupKeep l junk ++ [l.getLastD 0])
      rw [List.pairwise_append]
      refine ⟨hkept, List.sorted_singleton _, fun x hx y hy => ?_⟩
      rw [List.mem_singleton] at hy
      subst hy
      have hxl : x ∈ l := cDedupKeep_subset hx
      set m := (cDedupKeep l junk).getLastD junkNeg with hm
      have hkept_le : (cDedupKeep l junk).Sorted (· ≤ ·) :=
        hkept.imp (fun hab => le_of_lt hab)
      have hxm : x ≤ m := mem_le_getLastD hkept_le hx junkNeg
      have hmem : m ∈ cDedupKeep l junk := by
        cases hk : cDedupKeep l junk with
        | nil => rw [hk] at hx; exact absurd hx (List.not_mem_nil _)
        | cons c t => rw [hm, hk]; exact getLastD_mem c t junkNeg
      have hml : m ∈ l := cDedupKeep_subset hmem
      have hmle : m ≤ l.getLastD 0 := mem_le_getLastD h hml 0
      exact lt_of_le_of_lt hxm (lt_of_le_of_ne hmle hne)
    · exact hkept

end Proxima

namespace Proxima

/-- C6: For every sequence of insertions into a spatial hash and every query
AABB, the collected candidate values are sorted and deduplicated before the
callbacks run, so the query callback is invoked at most once per distinct
inserted value: the list of values the callbacks receive has no duplicates.
This holds for **every** content (`junk`, `junkNeg`) of the two memory words
the dedup loop reads from outside the scratch buffer. -/
theorem C6_query_callback_no_duplicates (cellSize : ℚ) (sh : prSpatialHash)
    (hsh : prCreateSpatialHash cellSize = some sh)
    (inserts : List (prAABB × ℤ)) (aabb : prAABB) (junk junkNeg : ℤ) :
    (prQuerySpatialHash
       (inserts.foldl (fun s kv => prInsertToSpatialHash s kv.1 kv.2) sh)
       aabb junk junkNeg).Nodup := by
  clear hsh
  unfold prQuerySpatialHash
  exact (cDedup_sorted_lt (List.sorted_insertionSort (· ≤ ·) _) junk junkNeg).nodup

/-- C6 witness: a concrete two-cell insertion of the same value twice,
queried back, yields a duplicate-free callback sequence. -/
theorem C6_query_callback_no_duplicates_witness :
    (prQuerySpatialHash
       ([(⟨0, 0, 3/2, 0⟩, (7 : ℤ)), (⟨0, 0, 0, 0⟩, (7 : ℤ))].foldl
         (fun s kv => prInsertToSpatialHash s kv.1 kv.2) ⟨1, fun _ => []⟩)
       ⟨0, 0, 3/2, 0⟩ 3 3).Nodup :=
  C6_query_callback_no_duplicates 1 ⟨1, fun _ => []⟩ rfl _ _ 3 3

/-- C5: the claim fails on the code, which is a slip against the spec's own
testable property: the dedup loop of `prQuerySpatialHash` reads
`queryResult[oldLength]` (one past the collected buffer) and, when it kept
nothing, `queryResult[-1]`.  When both stale words equal the collected
value — here value `0`, with both words `0`, e.g. zero-initialized fresh
memory — a value whose AABB overlaps the query AABB (here the query AABB
*is* the inserted AABB, spanning cells `(0,0)` and `(1,0)`) is dropped
and the callback is never invoked for it. -/
theorem C5_query_at_least_once_failing_input :
    prAABBsOverlap ⟨0, 0, 3/2, 0⟩ ⟨0, 0, 3/2, 0⟩ ∧
    prQuerySpatialHash
      (prInsertToSpatialHash ⟨1, fun _ => []⟩ ⟨0, 0, 3/2, 0⟩ 0)
      ⟨0, 0, 3/2, 0⟩ 0 0 = [] := by
  constructor
  · refine ⟨?_, ?_, ?_, ?_⟩ <;> norm_num
  · with_unfolding_all decide

end Proxima

namespace Proxima

/-! ## `geometry.c` (`part_007`): collision shapes -/

inductive prShapeType where
  | unknown
  | circle
  | polygon
  deriving DecidableEq, Repr

/-- `prMaterial`. -/
structure prMaterial where
  density : ℚ
  friction : ℚ
  restitution : ℚ
  deriving DecidableEq, Repr

/-- `prShape`: the C struct holds a type tag, a material, a cached area and
a union of the circle payload (`radius`) and the polygon payload
(`vertices`, `normals`); the union is modelled as separate fields, every
read of which is type-guarded exactly as in the source. -/
structure prShape where
  type : prShapeType
  material : prMaterial
  area : ℚ
  radius : ℚ
  vertices : List prVector2
  normals : List prVector2
  deriving DecidableEq, Repr

/-- A `calloc`-zeroed `prShape`. -/
def blankShape : prShape := ⟨.unknown, ⟨0, 0, 0⟩, 0, 0, [], []⟩

def zeroVec : prVector2 := ⟨0, 0⟩

/-- An indexed read `data[i]` from a vertex buffer. -/
def vget (l : List prVector2) (i : ℕ) : prVector2 := l.getD i zeroVec

/-- The candidate-selection loop of `prJarvisMarch` (the inner `for` over
all points, skipping the current and the currently-chosen next index).
Note the source computes `toCandidate` and `toNext` by the same expression,
so the tie case never replaces the candidate; transcribed as is. -/
def jarvisSelect (input : List prVector2) (currentIndex next0 : ℕ) : ℕ :=
  (List.range input.length).foldl
    (fun next i =>
      if i = currentIndex ∨ i = next then next
      else
        let direction :=
          prVector2CounterClockwise (vget input currentIndex) (vget input i)
            (vget input next)
        if direction < 0 then next
        else
          let toCandidate :=
            prVector2DistanceSqr (vget input currentIndex) (vget input next)
          let toNext :=
            prVector2DistanceSqr (vget input currentIndex) (vget input next)
          if direction ≠ 0 ∨ (direction = 0 ∧ toNext < toCandidate) then i
          else next)
    next0

/-- The outer `for (;;)` of `prJarvisMarch`: pick the first index other
than the current one, improve it over all candidates, stop when the chosen
index is the lowest one, else append that vertex and continue.  The loop
appends one hull vertex per iteration, so `input.length + 1` iterations
always reach the `break`. -/
def jarvisLoop (input : List prVector2) (lowestIndex : ℕ) :
    ℕ → ℕ → List prVector2 → List prVector2
  | 0, _, output => output
  | fuel + 1, currentIndex, output =>
    let next0 :=
      ((List.range input.length).find? (fun i => decide (i ≠ currentIndex))).getD
        currentIndex
    let nextIndex := jarvisSelect input currentIndex next0
    if nextIndex = lowestIndex then output
    else jarvisLoop input lowestIndex fuel nextIndex (output ++ [vget input nextIndex])

/-- `prJarvisMarch`: with fewer than 3 input points the output buffer is
left untouched (its count stays 0); otherwise gift-wrap starting from the
point of smallest `x`. -/
def prJarvisMarch (input : List prVector2) : List prVector2 :=
  if input.length < 3 then []
  else
    let lowestIndex :=
      (List.range input.length).foldl
        (fun low i =>
          if 1 ≤ i ∧ (vget input i).x < (vget input low).x then i else low)
        0
    jarvisLoop input lowestIndex (input.length + 1) lowestIndex
      [vget input lowestIndex]

/-- `prSetPolygonVertices`: reduce to the hull, recompute the normals as
left-perpendiculars of `v[i] − v[i−1 mod n]`, and cache the polygon area. -/
def prSetPolygonVertices (s : prShape) (vs : List prVector2) : prShape :=
  if vs.length ≤ 0 then s
  else
    let newVertices := prJarvisMarch vs
    let n := newVertices.length
    let normals :=
      (List.range n).map fun i =>
        prVector2LeftNormal
          (prVector2Subtract (vget newVertices i)
            (vget newVertices ((i + n - 1) % n)))
    let twiceAreaSum :=
      (List.range (n - 1)).foldl
        (fun acc i =>
          acc +
            prVector2Cross
              (prVector2Subtract (vget newVertices i) (vget newVertices 0))
              (prVector2Subtract (vget newVertices (i + 1)) (vget newVertices 0)))
        0
    { s with
      vertices := newVertices
      normals := normals
      area := |(1 / 2 : ℚ) * twiceAreaSum| }

/-- `prSetCircleRadius`. -/
def prSetCircleRadius (s : prShape) (radius : ℚ) : prShape :=
  if s.type ≠ .circle then s
  else { s with radius := radius, area := ratPi * (radius * radius) }

/-- `prCreateCircle`: `NULL` for a non-positive radius. -/
def prCreateCircle (material : prMaterial) (radius : ℚ) : Option prShape :=
  if radius ≤ 0 then none
  else some (prSetCircleRadius { blankShape with type := .circle, material := material } radius)

/-- `prCreateRectangle`: `NULL` for non-positive dimensions; otherwise the
four corners of the axis-aligned box, run through `prSetPolygonVertices`. -/
def prCreateRectangle (material : prMaterial) (width height : ℚ) : Option prShape :=
  if width ≤ 0 ∨ height ≤ 0 then none
  else
    let halfWidth := (1 / 2 : ℚ) * width
    let halfHeight := (1 / 2 : ℚ) * height
    some (prSetPolygonVertices
      { blankShape with type := .polygon, material := material }
      [⟨-halfWidth, -halfHeight⟩, ⟨-halfWidth, halfHeight⟩,
       ⟨halfWidth, halfHeight⟩, ⟨halfWidth, -halfHeight⟩])

/-- `prCreatePolygon`: `NULL` for a `NULL` or empty (`count <= 0`) vertex
list; any non-empty list is accepted and run through
`prSetPolygonVertices`. -/
def prCreatePolygon (material : prMaterial) (vs : List prVector2) : Option prShape :=
  if vs.length ≤ 0 then none
  else some (prSetPolygonVertices
    { blankShape with type := .polygon, material := material } vs)

/-! Shape getters: a `NULL` shape pointer is `none`. -/

def prGetShapeType (s : Option prShape) : prShapeType :=
  match s with
  | none => .unknown
  | some s => s.type

def prGetShapeDensity (s : Option prShape) : ℚ :=
  match s with
  | none => 0
  | some s => s.material.density

def prGetShapeFriction (s : Option prShape) : ℚ :=
  match s with
  | none => 0
  | some s => s.material.friction

def prGetShapeRestitution (s : Option prShape) : ℚ :=
  match s with
  | none => 0
  | some s => s.material.restitution

def prGetShapeArea (s : Option prShape) : ℚ :=
  match s with
  | none => 0
  | some s => s.area

def prGetShapeMass (s : Option prShape) : ℚ :=
  match s with
  | none => 0
  | some s => s.material.density * s.area

/-- `prGetShapeInertia`. -/
def prGetShapeInertia (s : Option prShape) : ℚ :=
  match s with
  | none => 0
  | some s =>
    if s.material.density ≤ 0 then 0
    else if s.type = .circle then
      (1 / 2 : ℚ) * prGetShapeMass (some s) * (s.radius * s.radius)
    else if s.type = .polygon then
      let vertexCount := s.vertices.length
      let sums :=
        (List.range vertexCount).foldl
          (fun (acc : ℚ × ℚ) i =>
            let v1 := vget s.vertices ((i + vertexCount - 1) % vertexCount)
            let v2 := vget s.vertices i
            let cross := prVector2Cross v1 v2
            let dotSum :=
              prVector2Dot v1 v1 + prVector2Dot v1 v2 + prVector2Dot v2 v2
            (acc.1 + cross * dotSum, acc.2 + cross))
          (0, 0)
      s.material.density * (sums.1 / (6 * sums.2))
    else 0

def prGetCircleRadius (s : Option prShape) : ℚ :=
  if prGetShapeType s = .circle then (s.getD blankShape).radius else 0

def prGetPolygonVertices (s : Option prShape) : List prVector2 :=
  if prGetShapeType s = .polygon then (s.getD blankShape).vertices else []

def prGetPolygonNormals (s : Option prShape) : List prVector2 :=
  if prGetShapeType s = .polygon then (s.getD blankShape).normals else []

/-- `prGetPolygonNormal`: zero vector for a non-polygon shape or an
out-of-range index. -/
def prGetPolygonNormal (s : Option prShape) (index : ℤ) : prVector2 :=
  if prGetShapeType s ≠ .polygon ∨ index < 0 ∨
      (s.getD blankShape).normals.length ≤ index.toNat then zeroVec
  else vget (s.getD blankShape).normals index.toNat

/-- `prGetShapeAABB`. -/
def prGetShapeAABB (s : Option prShape) (tx : prTransform) : prAABB :=
  match s with
  | none => ⟨0, 0, 0, 0⟩
  | some s =>
    if s.type = .circle then
      ⟨tx.position.x - s.radius, tx.position.y - s.radius,
       2 * s.radius, 2 * s.radius⟩
    else if s.type = .polygon then
      let box :=
        s.vertices.foldl
          (fun (acc : prVector2 × prVector2) vtx =>
            let v := prVector2Transform vtx tx
            let minV := acc.1
            let maxV := acc.2
            let minV := if v.x < minV.x then { minV with x := v.x } else minV
            let minV := if v.y < minV.y then { minV with y := v.y } else minV
            let maxV := if maxV.x < v.x then { maxV with x := v.x } else maxV
            let maxV := if maxV.y < v.y then { maxV with y := v.y } else maxV
            (minV, maxV))
          (⟨fltMax, fltMax⟩, ⟨-fltMax, -fltMax⟩)
      ⟨box.1.x, box.1.y, box.2.x - box.1.x, box.2.y - box.1.y⟩
    else ⟨0, 0, 0, 0⟩

end Proxima

namespace Proxima

/-- C7 counterexample: the claim says `prCreatePolygon` returns a null
handle for every input of fewer than 3 points, but the source only rejects
`count <= 0`; two points yield a non-null shape. -/
theorem C7_two_points_not_null_counterexample :
    (prCreatePolygon ⟨1, 1/2, 1/2⟩ [⟨0, 0⟩, ⟨1, 0⟩]).isSome = true := by
  with_unfolding_all decide

/-- C7 as amended: construction returns the null handle exactly for an
empty (`count <= 0`, or `NULL`) input list; for 1 or 2 points it returns a
non-null shape, but one whose hull was left empty (the Jarvis march
rejects fewer than 3 points without writing the output), so the resulting
polygon has vertex count 0. -/
theorem C7_polygon_construction_amended (material : prMaterial)
    (vs : List prVector2) :
    (vs.length = 0 → prCreatePolygon material vs = none) ∧
    (0 < vs.length → vs.length < 3 →
      (prCreatePolygon material vs).map (fun s => s.vertices) = some []) := by
  constructor
  · intro h
    simp [prCreatePolygon, h]
  · intro hpos hlt
    have hne : ¬ vs.length ≤ 0 := by omega
    simp only [prCreatePolygon, if_neg hne, Option.map_some]
    simp only [prSetPolygonVertices, if_neg hne, prJarvisMarch, if_pos hlt]
    simp [List.length_pos.mp hpos]

/-- C7 amended, witnessed at a concrete two-point input. -/
theorem C7_polygon_construction_amended_witness :
    (prCreatePolygon ⟨1, 1/2, 1/2⟩ [⟨0, 0⟩, ⟨1, 0⟩]).map (fun s => s.vertices)
      = some [] :=
  (C7_polygon_construction_amended ⟨1, 1/2, 1/2⟩ [⟨0, 0⟩, ⟨1, 0⟩]).2
    (by norm_num) (by norm_num)

end Proxima

namespace Proxima

/-! ## `collision.c` (inside `broad-phase.c`): narrow phase -/

structure prContactCache where
  normalMass : ℚ
  normalScalar : ℚ
  tangentMass : ℚ
  tangentScalar : ℚ
  deriving DecidableEq, Repr

structure prContact where
  id : ℤ
  point : prVector2
  depth : ℚ
  cache : prContactCache
  deriving DecidableEq, Repr

/-- `prCollision`: the C struct has a fixed two-element `contacts` array
and a `count`; the narrow phase always writes both elements. -/
structure prCollision where
  friction : ℚ
  restitution : ℚ
  direction : prVector2
  contacts : List prContact
  count : ℕ
  deriving DecidableEq, Repr

def zeroContact : prContact := ⟨0, zeroVec, 0, ⟨0, 0, 0, 0⟩⟩

/-- `prCollision collision = { .count = 0 }`: the zero-initialized struct
the call sites pass to `prComputeCollision`. -/
def blankCollision : prCollision := ⟨0, 0, zeroVec, [zeroContact, zeroContact], 0⟩

/-- An indexed read `contacts[i]`. -/
def cget (l : List prContact) (i : ℕ) : prContact := l.getD i zeroContact

/-- `prEdge`: a contact edge (two world-space points and their vertex
indices on the owning polygon). -/
structure prEdge where
  data0 : prVector2
  data1 : prVector2
  index0 : ℕ
  index1 : ℕ
  count : ℕ
  deriving DecidableEq, Repr

/-- `prClipEdge`: clip `e` against the half-plane `⟪·, v⟫ ≥ dot`;
`none` models the `false` return (both points strictly outside). -/
def prClipEdge (e : prEdge) (v : prVector2) (dot : ℚ) : Option prEdge :=
  let dot1 := prVector2Dot e.data0 v - dot
  let dot2 := prVector2Dot e.data1 v - dot
  if 0 ≤ dot1 ∧ 0 ≤ dot2 then some { e with count := 2 }
  else
    let edgeVector := prVector2Subtract e.data1 e.data0
    let midpoint :=
      prVector2Add e.data0 (prVector2ScalarMultiply edgeVector (dot1 / (dot1 - dot2)))
    if 0 < dot1 ∧ dot2 < 0 then some { e with data1 := midpoint, count := 2 }
    else if dot1 < 0 ∧ 0 < dot2 then
      some { e with data0 := e.data1, data1 := midpoint, count := 2 }
    else none

/-- `prGetSupportPointIndex`: index of the vertex farthest along `v`
(−1 when the vertex list is empty). -/
def prGetSupportPointIndex (vertices : List prVector2)
    (tx : prTransform) (v : prVector2) : ℤ :=
  let v' := prVector2Rotate v (-tx.angle)
  ((List.range vertices.length).foldl
    (fun (acc : ℚ × ℤ) i =>
      let dot := prVector2Dot (vget vertices i) v'
      if acc.1 < dot then (dot, (i : ℤ)) else acc)
    (-fltMax, -1)).2

/-- `prGetContactEdge`: of the two edges adjacent to the support vertex
along `v`, the one more perpendicular to `v`. -/
def prGetContactEdge (s : Option prShape) (tx : prTransform)
    (v : prVector2) : prEdge :=
  let vertices := prGetPolygonVertices s
  let supportIndex := (prGetSupportPointIndex vertices tx v).toNat
  let prevIndex := if supportIndex = 0 then vertices.length - 1 else supportIndex - 1
  let nextIndex := if supportIndex = vertices.length - 1 then 0 else supportIndex + 1
  let prevEdgeVector :=
    prVector2Normalize (prVector2Subtract (vget vertices supportIndex) (vget vertices prevIndex))
  let nextEdgeVector :=
    prVector2Normalize (prVector2Subtract (vget vertices supportIndex) (vget vertices nextIndex))
  let v' := prVector2Rotate v (-tx.angle)
  if prVector2Dot prevEdgeVector v' < prVector2Dot nextEdgeVector v' then
    ⟨prVector2Transform (vget vertices prevIndex) tx,
     prVector2Transform (vget vertices supportIndex) tx, prevIndex, supportIndex, 2⟩
  else
    ⟨prVector2Transform (vget vertices supportIndex) tx,
     prVector2Transform (vget vertices nextIndex) tx, supportIndex, nextIndex, 2⟩

/-- The loop of `prGetSeparatingAxisIndex`; `none` in the second component
models the early `return supportIndex` that leaves `*depth` unwritten. -/
def sepAxisGo (vertices1 normals1 : List prVector2)
    (tx1 : prTransform) (vertices2 : List prVector2) (tx2 : prTransform) :
    List ℕ → ℚ → ℤ → ℤ × Option ℚ
  | [], maxDepth, maxIndex => (maxIndex, some maxDepth)
  | i :: rest, maxDepth, maxIndex =>
    let vertex := prVector2Transform (vget vertices1 i) tx1
    let normal := prVector2RotateTx (vget normals1 i) tx1
    let supportIndex :=
      prGetSupportPointIndex vertices2 tx2 (prVector2Negate normal)
    if supportIndex < 0 then (supportIndex, none)
    else
      let supportPoint := prVector2Transform (vget vertices2 supportIndex.toNat) tx2
      let depth := prVector2Dot normal (prVector2Subtract supportPoint vertex)
      if maxDepth < depth then
        sepAxisGo vertices1 normals1 tx1 vertices2 tx2 rest depth (i : ℤ)
      else sepAxisGo vertices1 normals1 tx1 vertices2 tx2 rest maxDepth maxIndex

/-- `prGetSeparatingAxisIndex`. -/
def prGetSeparatingAxisIndex (s1 : Option prShape)
    (tx1 : prTransform) (s2 : Option prShape) (tx2 : prTransform) : ℤ × Option ℚ :=
  sepAxisGo (prGetPolygonVertices s1) (prGetPolygonNormals s1) tx1
    (prGetPolygonVertices s2) tx2
    (List.range (prGetPolygonNormals s1).length) (-fltMax) (-1)

/-- `prComputeCollisionCircles`. -/
def prComputeCollisionCircles (s1 : Option prShape) (tx1 : prTransform)
    (s2 : Option prShape) (tx2 : prTransform) (collision : prCollision) :
    Option prCollision :=
  let direction := prVector2Subtract tx2.position tx1.position
  let radiusSum := prGetCircleRadius s1 + prGetCircleRadius s2
  let magnitudeSqr := prVector2MagnitudeSqr direction
  if radiusSum * radiusSum < magnitudeSqr then none
  else
    let magnitude := ratSqrt magnitudeSqr
    let dirOut :=
      if 0 < magnitude then prVector2ScalarMultiply direction (1 / magnitude)
      else ⟨1, 0⟩
    let contact0 :=
      { cget collision.contacts 0 with
        id := 0
        point :=
          prVector2Transform (prVector2ScalarMultiply dirOut (prGetCircleRadius s1)) tx1
        depth :=
          if 0 < magnitude then radiusSum - magnitude else prGetCircleRadius s1 }
    some { collision with
           direction := dirOut
           contacts := (collision.contacts.set 0 contact0).set 1 contact0
           count := 1 }

/-- The edge-search loop of `prComputeCollisionCirclePoly`; `none` models
the early `return false` when some face already separates by more than the
radius. -/
def circlePolyFindEdge (normals vertices : List prVector2) (txCenter : prVector2)
    (radius : ℚ) : List ℕ → ℚ → ℤ → Option (ℚ × ℤ)
  | [], maxDot, maxIndex => some (maxDot, maxIndex)
  | i :: rest, maxDot, maxIndex =>
    let dot := prVector2Dot (vget normals i) (prVector2Subtract txCenter (vget vertices i))
    if radius < dot then none
    else if maxDot < dot then circlePolyFindEdge normals vertices txCenter radius rest dot (i : ℤ)
    else circlePolyFindEdge normals vertices txCenter radius rest maxDot maxIndex

/-- `prComputeCollisionCirclePoly`. -/
def prComputeCollisionCirclePoly (s1 : Option prShape)
    (tx1 : prTransform) (s2 : Option prShape) (tx2 : prTransform)
    (collision : prCollision) : Option prCollision :=
  let circle := if prGetShapeType s1 = .circle then s1 else s2
  let poly := if prGetShapeType s1 = .circle then s2 else s1
  let circleTx := if prGetShapeType s1 = .circle then tx1 else tx2
  let polyTx := if prGetShapeType s1 = .circle then tx2 else tx1
  let vertices := prGetPolygonVertices poly
  let normals := prGetPolygonNormals poly
  let txCenter :=
    prVector2Rotate
      (prVector2Subtract circleTx.position polyTx.position) (-polyTx.angle)
  let radius := prGetCircleRadius circle
  match circlePolyFindEdge normals vertices txCenter radius
      (List.range vertices.length) (-fltMax) (-1) with
  | none => none
  | some (maxDot, maxIndex) =>
    if maxIndex < 0 then none
    else if maxDot < 0 then
      let dir0 :=
        prVector2Negate (prVector2RotateTx (vget normals maxIndex.toNat) polyTx)
      let deltaPosition := prVector2Subtract tx2.position tx1.position
      let direction :=
        if prVector2Dot deltaPosition dir0 < 0 then prVector2Negate dir0 else dir0
      let contact0 :=
        { cget collision.contacts 0 with
          id := 0
          point := prVector2Add circleTx.position (prVector2ScalarMultiply direction radius)
          depth := radius - maxDot }
      some { collision with
             direction := direction
             contacts := (collision.contacts.set 0 contact0).set 1 contact0
             count := 1 }
    else
      let v1 :=
        if 0 < maxIndex then vget vertices (maxIndex.toNat - 1)
        else vget vertices (vertices.length - 1)
      let v2 := vget vertices maxIndex.toNat
      let edgeVector := prVector2Subtract v2 v1
      let v1ToCenter := prVector2Subtract txCenter v1
      let v2ToCenter := prVector2Subtract txCenter v2
      let v1Dot := prVector2Dot v1ToCenter edgeVector
      let v2Dot := prVector2Dot v2ToCenter (prVector2Negate edgeVector)
      if v1Dot ≤ 0 ∨ v2Dot ≤ 0 then
        let direction0 := if v1Dot ≤ 0 then v1ToCenter else v2ToCenter
        let magnitudeSqr := prVector2MagnitudeSqr direction0
        if radius * radius < magnitudeSqr then none
        else
          let magnitude := ratSqrt magnitudeSqr
          let dir1 :=
            if 0 < magnitude then
              prVector2ScalarMultiply
                (prVector2RotateTx (prVector2Negate direction0) polyTx) (1 / magnitude)
            else zeroVec
          let deltaPosition := prVector2Subtract tx2.position tx1.position
          let direction :=
            if prVector2Dot deltaPosition dir1 < 0 then prVector2Negate dir1 else dir1
          let contact0 :=
            { cget collision.contacts 0 with
              id := 0
              point := prVector2Transform (prVector2ScalarMultiply direction radius) circleTx
              depth := if 0 < magnitude then radius - magnitude else radius }
          some { collision with
                 direction := direction
                 contacts := (collision.contacts.set 0 contact0).set 1 contact0
                 count := 1 }
      else
        let dir0 :=
          prVector2Negate (prVector2RotateTx (vget normals maxIndex.toNat) polyTx)
        let deltaPosition := prVector2Subtract tx2.position tx1.position
        let direction :=
          if prVector2Dot deltaPosition dir0 < 0 then prVector2Negate dir0 else dir0
        let contact0 :=
          { cget collision.contacts 0 with
            id := 0
            point := prVector2Add circleTx.position (prVector2ScalarMultiply direction radius)
            depth := radius - maxDot }
        some { collision with
               direction := direction
               contacts := (collision.contacts.set 0 contact0).set 1 contact0
               count := 1 }

/-- `prComputeCollisionPolys` (SAT + Sutherland–Hodgman clipping). -/
def prComputeCollisionPolys (s1 : Option prShape)
    (tx1 : prTransform) (s2 : Option prShape) (tx2 : prTransform)
    (collision : prCollision) : Option prCollision :=
  let r1 := prGetSeparatingAxisIndex s1 tx1 s2 tx2
  let index1 := r1.1
  let maxDepth1 := r1.2.getD fltMax
  if 0 ≤ maxDepth1 then none
  else
    let r2 := prGetSeparatingAxisIndex s2 tx2 s1 tx1
    let index2 := r2.1
    let maxDepth2 := r2.2.getD fltMax
    if 0 ≤ maxDepth2 then none
    else
      let dir0 :=
        if maxDepth2 < maxDepth1 then
          prVector2RotateTx (prGetPolygonNormal s1 index1) tx1
        else prVector2RotateTx (prGetPolygonNormal s2 index2) tx2
      let deltaPosition := prVector2Subtract tx2.position tx1.position
      let direction :=
        if prVector2Dot deltaPosition dir0 < 0 then prVector2Negate dir0 else dir0
      let edge1 := prGetContactEdge s1 tx1 direction
      let edge2 := prGetContactEdge s2 tx2 (prVector2Negate direction)
      let edgeVector1 := prVector2Subtract edge1.data1 edge1.data0
      let edgeVector2 := prVector2Subtract edge2.data1 edge2.data0
      let edgeDot1 := prVector2Dot edgeVector1 direction
      let edgeDot2 := prVector2Dot edgeVector2 direction
      let incEdgeFlipped := |edgeDot2| < |edgeDot1|
      let refEdge := if incEdgeFlipped then edge2 else edge1
      let incEdge := if incEdgeFlipped then edge1 else edge2
      let refEdgeVector :=
        prVector2Normalize (prVector2Subtract refEdge.data1 refEdge.data0)
      let refDot1 := prVector2Dot refEdge.data0 refEdgeVector
      let refDot2 := prVector2Dot refEdge.data1 refEdgeVector
      match prClipEdge incEdge refEdgeVector refDot1 with
      | none => none
      | some incEdge1 =>
        match prClipEdge incEdge1 (prVector2Negate refEdgeVector) (-refDot2) with
        | none => none
        | some incEdge2 =>
          let refEdgeNormal := prVector2RightNormal refEdgeVector
          let maxDepth := prVector2Dot refEdge.data0 refEdgeNormal
          let depth1 := prVector2Dot incEdge2.data0 refEdgeNormal - maxDepth
          let depth2 := prVector2Dot incEdge2.data1 refEdgeNormal - maxDepth
          let id0 : ℤ :=
            if ¬incEdgeFlipped then (maxVertexCount : ℤ) + incEdge2.index0
            else (incEdge2.index0 : ℤ)
          let id1 : ℤ :=
            if ¬incEdgeFlipped then (maxVertexCount : ℤ) + incEdge2.index1
            else (incEdge2.index1 : ℤ)
          let c0 := { cget collision.contacts 0 with id := id0 }
          let c1 := { cget collision.contacts 1 with id := id1 }
          if depth1 < 0 then
            let c0' := { c0 with point := incEdge2.data1, depth := depth2 }
            let c1' := { c1 with point := c0'.point, depth := c0'.depth }
            some { collision with
                   direction := direction
                   contacts := (collision.contacts.set 0 c0').set 1 c1'
                   count := 1 }
          else if depth2 < 0 then
            let c0' := { c0 with point := incEdge2.data0, depth := depth1 }
            let c1' := { c1 with point := c0'.point, depth := c0'.depth }
            some { collision with
                   direction := direction
                   contacts := (collision.contacts.set 0 c0').set 1 c1'
                   count := 1 }
          else
            let c0' := { c0 with point := incEdge2.data0, depth := depth1 }
            let c1' := { c1 with point := incEdge2.data1, depth := depth2 }
            some { collision with
                   direction := direction
                   contacts := (collision.contacts.set 0 c0').set 1 c1'
                   count := 2 }

/-- `prComputeCollision`: `false` (`none`) for a `NULL` shape or an
unknown shape pairing, else dispatch on the two shape types. -/
def prComputeCollision (s1 : Option prShape) (tx1 : prTransform)
    (s2 : Option prShape) (tx2 : prTransform) (collision : prCollision) :
    Option prCollision :=
  if s1 = none ∨ s2 = none then none
  else
    let t1 := prGetShapeType s1
    let t2 := prGetShapeType s2
    if t1 = .circle ∧ t2 = .circle then
      prComputeCollisionCircles s1 tx1 s2 tx2 collision
    else if (t1 = .circle ∧ t2 = .polygon) ∨ (t1 = .polygon ∧ t2 = .circle) then
      prComputeCollisionCirclePoly s1 tx1 s2 tx2 collision
    else if t1 = .polygon ∧ t2 = .polygon then
      prComputeCollisionPolys s1 tx1 s2 tx2 collision
    else none

end Proxima

namespace Proxima

set_option maxRecDepth 8000 in
/-- C4 (`BoxToBox1`): the 150×100-pixel rectangle centered at (−50, 0)
pixels against the 150×50-pixel rectangle centered at (50, 0) pixels, at
16 pixels per unit (the transforms are exactly those a body created at
these positions carries: cached rotation (sin, cos) = (0, 1), angle 0).
`prComputeCollision` succeeds with count = 2, direction (1, 0),
contact[0] = (−1.5625, −1.5625) and contact[1] = (−1.5625, 1.5625) (in
units: −25/16 and 25/16), both of depth 3.125 = 25/8.  The equalities are
exact over `ℚ`, hence within the claim's 1e-6 tolerance. -/
theorem C4_box_to_box_1 :
    (prCreateRectangle ⟨0, 0, 0⟩ (prPixelsToUnits 150) (prPixelsToUnits 100)).bind
      (fun s1 =>
        (prCreateRectangle ⟨0, 0, 0⟩ (prPixelsToUnits 150) (prPixelsToUnits 50)).bind
          (fun s2 =>
            prComputeCollision (some s1) ⟨prVector2PixelsToUnits ⟨-50, 0⟩, 0, 1, 0⟩
              (some s2) ⟨prVector2PixelsToUnits ⟨50, 0⟩, 0, 1, 0⟩ blankCollision))
      = some { friction := 0, restitution := 0, direction := ⟨1, 0⟩,
               contacts := [⟨8, ⟨-25/16, -25/16⟩, 25/8, ⟨0, 0, 0, 0⟩⟩,
                            ⟨9, ⟨-25/16, 25/16⟩, 25/8, ⟨0, 0, 0, 0⟩⟩],
               count := 2 } := by
  with_unfolding_all decide

end Proxima

namespace Proxima

/-! ## `rigid-body.c` (inside `broad-phase.c`): bodies and the solver -/

inductive prBodyType where
  | unknown
  | static
  | kinematic
  | dynamic
  deriving DecidableEq, Repr

/-- `PR_FLAG_INFINITE_MASS`. -/
def flagInfiniteMass : ℕ := 1

/-- `PR_FLAG_INFINITE_INERTIA`. -/
def flagInfiniteInertia : ℕ := 2

/-- `prBody` (type, flags, shape, transform, motion data, cached AABB). -/
structure prBody where
  type : prBodyType
  flags : ℕ
  shape : Option prShape
  tx : prTransform
  mass : ℚ
  invMass : ℚ
  inertia : ℚ
  invInertia : ℚ
  gravityScale : ℚ
  velocity : prVector2
  angularVelocity : ℚ
  force : prVector2
  torque : ℚ
  aabb : prAABB
  deriving DecidableEq, Repr

/-- A `calloc`-zeroed `prBody`. -/
def blankBody : prBody :=
  ⟨.unknown, 0, none, ⟨zeroVec, 0, 0, 0⟩, 0, 0, 0, 0, 0, zeroVec, 0, zeroVec, 0,
   ⟨0, 0, 0, 0⟩⟩

def prGetBodyShape (b : prBody) : Option prShape := b.shape

def prGetBodyTransform (b : prBody) : prTransform := b.tx

def prGetBodyPosition (b : prBody) : prVector2 := b.tx.position

def prGetBodyInverseMass (b : prBody) : ℚ := b.invMass

/-- `prGetBodyAABB`: the zero AABB for a body without a shape. -/
def prGetBodyAABB (b : prBody) : prAABB :=
  if b.shape ≠ none then b.aabb else ⟨0, 0, 0, 0⟩

/-- `prComputeBodyMass`: zero all four mass fields, then — static: also pin
the velocities to zero; dynamic: recompute mass/inertia from the shape
unless the corresponding infinite flag is set; kinematic/unknown: leave
them zero. -/
def prComputeBodyMass (b : prBody) : prBody :=
  let b := { b with mass := 0, invMass := 0, inertia := 0, invInertia := 0 }
  match b.type with
  | .static => { b with velocity := zeroVec, angularVelocity := 0 }
  | .dynamic =>
    let b :=
      if b.flags &&& flagInfiniteMass = 0 then
        let b := { b with mass := prGetShapeMass b.shape }
        if 0 < b.mass then { b with invMass := 1 / b.mass } else b
      else b
    if b.flags &&& flagInfiniteInertia = 0 then
      let b := { b with inertia := prGetShapeInertia b.shape }
      if 0 < b.inertia then { b with invInertia := 1 / b.inertia } else b
    else b
  | _ => b

/-- `prCreateBody`: `NULL` for an out-of-range body type. -/
def prCreateBody (type : prBodyType) (position : prVector2) : Option prBody :=
  if type = .unknown then none
  else some { blankBody with
              type := type
              tx := ⟨position, 0, 1, 0⟩
              gravityScale := 1 }

/-- `prSetBodyShape`. -/
def prSetBodyShape (b : prBody) (s : Option prShape) : prBody :=
  prComputeBodyMass
    { b with
      shape := s
      aabb := if s ≠ none then prGetShapeAABB s b.tx else ⟨0, 0, 0, 0⟩ }

/-- `prCreateBodyFromShape`. -/
def prCreateBodyFromShape (type : prBodyType) (position : prVector2)
    (s : Option prShape) : Option prBody :=
  (prCreateBody type position).map (fun b => prSetBodyShape b s)

def prSetBodyType (b : prBody) (type : prBodyType) : prBody :=
  prComputeBodyMass { b with type := type }

def prSetBodyFlags (b : prBody) (flags : ℕ) : prBody :=
  prComputeBodyMass { b with flags := flags }

def prSetBodyPosition (b : prBody) (position : prVector2) : prBody :=
  let b := { b with tx := { b.tx with position := position } }
  { b with aabb := prGetShapeAABB b.shape b.tx }

/-- `TWO_PI` and `INVERSE_TWO_PI` of `rigid-body.c`. -/
def twoPi : ℚ := 2 * ratPi

def inverseTwoPi : ℚ := 1 / (2 * ratPi)

/-- `prNormalizeAngle`. -/
def prNormalizeAngle (angle : ℚ) : ℚ :=
  angle - twoPi * (⌊angle * inverseTwoPi⌋ : ℤ)

/-- `prSetBodyAngle` (recomputes the cached sin/cos and the AABB). -/
def prSetBodyAngle (b : prBody) (angle : ℚ) : prBody :=
  let a := prNormalizeAngle angle
  let b := { b with tx := { b.tx with angle := a, rotSin := ratSin a, rotCos := ratCos a } }
  { b with aabb := prGetShapeAABB b.shape b.tx }

def prSetBodyGravityScale (b : prBody) (scale : ℚ) : prBody :=
  { b with gravityScale := scale }

/-- `prSetBodyVelocity` — note: no guard on the body type. -/
def prSetBodyVelocity (b : prBody) (velocity : prVector2) : prBody :=
  { b with velocity := velocity }

/-- `prSetBodyAngularVelocity` — note: no guard on the body type. -/
def prSetBodyAngularVelocity (b : prBody) (angularVelocity : ℚ) : prBody :=
  { b with angularVelocity := angularVelocity }

def prClearBodyForces (b : prBody) : prBody :=
  { b with force := zeroVec, torque := 0 }

def prApplyForceToBody (b : prBody) (point force : prVector2) : prBody :=
  if b.invMass ≤ 0 then b
  else { b with
         force := prVector2Add b.force force
         torque := b.torque + prVector2Cross point force }

def prApplyGravityToBody (b : prBody) (g : prVector2) : prBody :=
  if b.mass ≤ 0 then b
  else { b with
         force := prVector2Add b.force
           (prVector2ScalarMultiply g (b.gravityScale * b.mass)) }

def prApplyImpulseToBody (b : prBody) (point impulse : prVector2) : prBody :=
  if b.invMass ≤ 0 then b
  else { b with
         velocity := prVector2Add b.velocity (prVector2ScalarMultiply impulse b.invMass)
         angularVelocity := b.angularVelocity + b.invInertia * prVector2Cross point impulse }

def prIntegrateForBodyVelocity (b : prBody) (dt : ℚ) : prBody :=
  if b.invMass ≤ 0 ∨ dt ≤ 0 then b
  else { b with
         velocity := prVector2Add b.velocity
           (prVector2ScalarMultiply b.force (b.invMass * dt))
         angularVelocity := b.angularVelocity + b.torque * b.invInertia * dt }

def prIntegrateForBodyPosition (b : prBody) (dt : ℚ) : prBody :=
  if b.type = .static ∨ dt ≤ 0 then b
  else
    let b := { b with tx := { b.tx with position :=
      ⟨b.tx.position.x + b.velocity.x * dt, b.tx.position.y + b.velocity.y * dt⟩ } }
    let b := prSetBodyAngle b (b.tx.angle + b.angularVelocity * dt)
    { b with aabb := prGetShapeAABB b.shape b.tx }

/-- The normal-impulse half of the per-contact block of
`frResolveCollision` (entered only when the contact is not separating):
relative velocity at the contact, effective normal mass, Baumgarte bias,
the normal scalar `((−(1+e))·vn + b) / k_n`, its store into the contact's
impulse cache (a plain overwrite), and its application, negative on body 1
and positive on body 2. -/
def solveContactNormalPhase (b1 b2 : prBody) (direction : prVector2)
    (restitution : ℚ) (contact : prContact) (inverseDt : ℚ) :
    prBody × prBody × prContact :=
  let relPosition1 := prVector2Subtract contact.point (prGetBodyPosition b1)
  let relPosition2 := prVector2Subtract contact.point (prGetBodyPosition b2)
  let relNormal1 := prVector2LeftNormal relPosition1
  let relNormal2 := prVector2LeftNormal relPosition2
  let relVelocity :=
    prVector2Subtract
      (prVector2Add b2.velocity (prVector2ScalarMultiply relNormal2 b2.angularVelocity))
      (prVector2Add b1.velocity (prVector2ScalarMultiply relNormal1 b1.angularVelocity))
  let relVelocityDot := prVector2Dot relVelocity direction
  let relPositionCross1 := prVector2Cross relPosition1 direction
  let relPositionCross2 := prVector2Cross relPosition2 direction
  let normalMass :=
    (b1.invMass + b2.invMass) +
      b1.invInertia * (relPositionCross1 * relPositionCross1) +
      b2.invInertia * (relPositionCross2 * relPositionCross2)
  let biasScalar :=
    -(baumgarteFactor * inverseDt) * min 0 (-contact.depth + baumgarteSlop)
  let normalScalar := (-(1 + restitution) * relVelocityDot + biasScalar) / normalMass
  let contact := { contact with cache := { contact.cache with normalScalar := normalScalar } }
  let normalImpulse := prVector2ScalarMultiply direction normalScalar
  let b1 := prApplyImpulseToBody b1 relPosition1 (prVector2Negate normalImpulse)
  let b2 := prApplyImpulseToBody b2 relPosition2 normalImpulse
  (b1, b2, contact)

/-- The tangent (friction) half of the per-contact block of
`frResolveCollision`: recompute the relative velocity from the updated
bodies, clamp the tangent scalar to the Coulomb cone around the normal
scalar just stored, overwrite the tangent cache, apply. -/
def solveContactTangentPhase (b1 b2 : prBody) (direction : prVector2)
    (friction : ℚ) (contact : prContact) : prBody × prBody × prContact :=
  let relPosition1 := prVector2Subtract contact.point (prGetBodyPosition b1)
  let relPosition2 := prVector2Subtract contact.point (prGetBodyPosition b2)
  let relNormal1 := prVector2LeftNormal relPosition1
  let relNormal2 := prVector2LeftNormal relPosition2
  let relVelocity :=
    prVector2Subtract
      (prVector2Add b2.velocity (prVector2ScalarMultiply relNormal2 b2.angularVelocity))
      (prVector2Add b1.velocity (prVector2ScalarMultiply relNormal1 b1.angularVelocity))
  let tangent : prVector2 := ⟨direction.y, -direction.x⟩
  let relPositionCross1 := prVector2Cross relPosition1 tangent
  let relPositionCross2 := prVector2Cross relPosition2 tangent
  let tangentMass :=
    (b1.invMass + b2.invMass) +
      b1.invInertia * (relPositionCross1 * relPositionCross1) +
      b2.invInertia * (relPositionCross2 * relPositionCross2)
  let tangentScalar0 := -(prVector2Dot relVelocity tangent) / tangentMass
  let maxTangentScalar := friction * contact.cache.normalScalar
  let tangentScalar := min (max tangentScalar0 (-maxTangentScalar)) maxTangentScalar
  let contact := { contact with cache := { contact.cache with tangentScalar := tangentScalar } }
  let tangentImpulse := prVector2ScalarMultiply tangent tangentScalar
  let b1 := prApplyImpulseToBody b1 relPosition1 (prVector2Negate tangentImpulse)
  let b2 := prApplyImpulseToBody b2 relPosition2 tangentImpulse
  (b1, b2, contact)

/-- `frResolveCollision` (the contact solver of `broad-phase.c`): when both
inverse masses are zero, only pin static bodies' velocities; otherwise,
for each contact in order, skip it if separating (`vn > 0`), else run the
normal phase then the tangent phase, writing the mutated contact back. -/
def frResolveStep (inverseDt : ℚ) (st : prBody × prBody × prCollision) (i : ℕ) :
    prBody × prBody × prCollision :=
  let b1 := st.1
  let b2 := st.2.1
  let ctx := st.2.2
  let contact := cget ctx.contacts i
  let relPosition1 := prVector2Subtract contact.point (prGetBodyPosition b1)
  let relPosition2 := prVector2Subtract contact.point (prGetBodyPosition b2)
  let relNormal1 := prVector2LeftNormal relPosition1
  let relNormal2 := prVector2LeftNormal relPosition2
  let relVelocity :=
    prVector2Subtract
      (prVector2Add b2.velocity
        (prVector2ScalarMultiply relNormal2 b2.angularVelocity))
      (prVector2Add b1.velocity
        (prVector2ScalarMultiply relNormal1 b1.angularVelocity))
  let relVelocityDot := prVector2Dot relVelocity ctx.direction
  if 0 < relVelocityDot then (b1, b2, ctx)
  else
    let r1 := solveContactNormalPhase b1 b2 ctx.direction ctx.restitution contact inverseDt
    let r2 := solveContactTangentPhase r1.1 r1.2.1 ctx.direction ctx.friction r1.2.2
    (r2.1, r2.2.1, { ctx with contacts := ctx.contacts.set i r2.2.2 })

def frResolveCollision (b1 b2 : prBody) (ctx : prCollision) (inverseDt : ℚ) :
    prBody × prBody × prCollision :=
  if b1.invMass + b2.invMass ≤ 0 then
    let b1 :=
      if b1.type = .static then { b1 with velocity := zeroVec, angularVelocity := 0 }
      else b1
    let b2 :=
      if b2.type = .static then { b2 with velocity := zeroVec, angularVelocity := 0 }
      else b2
    (b1, b2, ctx)
  else
    (List.range ctx.count).foldl (frResolveStep inverseDt) (b1, b2, ctx)

end Proxima

namespace Proxima

/-! ## C3: the contact solver's normal impulse -/

/-- Concrete solver scenario for C3: two unit-mass dynamic bodies with an
inelastic (e = 0), frictionless head-on contact of depth exactly `slop`
(so the Baumgarte bias is zero), one contact point. -/
def c3Body1 : prBody :=
  { blankBody with
    type := .dynamic
    tx := ⟨⟨0, 0⟩, 0, 1, 0⟩
    mass := 1
    invMass := 1
    velocity := ⟨1, 0⟩
    gravityScale := 1 }

def c3Body2 : prBody :=
  { blankBody with
    type := .dynamic
    tx := ⟨⟨2, 0⟩, 0, 1, 0⟩
    mass := 1
    invMass := 1
    velocity := ⟨-1, 0⟩
    gravityScale := 1 }

def c3Manifold : prCollision :=
  { friction := 0
    restitution := 0
    direction := ⟨1, 0⟩
    contacts := [⟨0, ⟨1, 0⟩, 1/100, ⟨0, 0, 0, 0⟩⟩, ⟨0, ⟨1, 0⟩, 1/100, ⟨0, 0, 0, 0⟩⟩]
    count := 1 }

/-- One solver iteration over the cached manifold, at `dt = 1`. -/
def c3Solve (st : prBody × prBody × prCollision) : prBody × prBody × prCollision :=
  frResolveCollision st.1 st.2.1 st.2.2 1

set_option maxRecDepth 4000 in
/-- C3 counterexample: the computed normal impulse is **not** accumulated
in the contact's impulse cache over the 12 solver iterations — each
iteration overwrites the cache with the latest value.  Concretely:
iteration 1 computes and applies the impulse `λ = 1` (the bodies' closing
velocities ±1 are cancelled, witnessed by the final velocity of body 1),
so an accumulated cache would hold `1` after the 12 iterations; the code's
cache holds the 12th iteration's value `0`. -/
theorem C3_normal_impulse_accumulation_counterexample :
    (cget (c3Solve^[1] (c3Body1, c3Body2, c3Manifold)).2.2.contacts 0).cache.normalScalar
        = 1 ∧
    (cget (c3Solve^[iterationCount] (c3Body1, c3Body2, c3Manifold)).2.2.contacts 0).cache.normalScalar
        = 0 ∧
    (c3Solve^[iterationCount] (c3Body1, c3Body2, c3Manifold)).1.velocity = ⟨0, 0⟩ := by
  with_unfolding_all decide

end Proxima

namespace Proxima

lemma cget_set {l : List prContact} {i : ℕ} (h : i < l.length) (x : prContact) :
    cget (l.set i x) i = x := by
  unfold cget
  rw [List.getD_eq_getElem?_getD, List.getElem?_set_self (by simpa using h)]
  rfl

lemma tangentPhase_normalScalar (b1 b2 : prBody) (d : prVector2) (f : ℚ)
    (c : prContact) :
    (solveContactTangentPhase b1 b2 d f c).2.2.cache.normalScalar
      = c.cache.normalScalar := rfl

/-- C3 as amended: for a cached one-contact manifold whose contact is not
separating, a solver iteration computes the normal impulse magnitude
`λ_n = (−(1 + e)·vn + b) / k_n` with bias
`b = −(0.24·(1/dt))·min(0, −depth + 0.01)`, **overwrites** the contact's
impulse cache with it (the cache holds the most recent iteration's value —
it is not a running sum; `prStepWorld` runs `PR_WORLD_ITERATION_COUNT =
12` such iterations), and applies the impulse `λ_n · n` negatively to
body 1 and positively to body 2. -/
theorem C3_normal_impulse_overwrite_amended (b1 b2 : prBody) (ctx : prCollision)
    (inverseDt : ℚ)
    (hmass : ¬ b1.invMass + b2.invMass ≤ 0)
    (hcount : ctx.count = 1)
    (hlen : 0 < ctx.contacts.length)
    (hsep : ¬ 0 < prVector2Dot
        (prVector2Subtract
          (prVector2Add b2.velocity
            (prVector2ScalarMultiply
              (prVector2LeftNormal
                (prVector2Subtract (cget ctx.contacts 0).point (prGetBodyPosition b2)))
              b2.angularVelocity))
          (prVector2Add b1.velocity
            (prVector2ScalarMultiply
              (prVector2LeftNormal
                (prVector2Subtract (cget ctx.contacts 0).point (prGetBodyPosition b1)))
              b1.angularVelocity)))
        ctx.direction) :
    (cget (frResolveCollision b1 b2 ctx inverseDt).2.2.contacts 0).cache.normalScalar
      = (-(1 + ctx.restitution) *
           (prVector2Dot
             (prVector2Subtract
               (prVector2Add b2.velocity
                 (prVector2ScalarMultiply
                   (prVector2LeftNormal
                     (prVector2Subtract (cget ctx.contacts 0).point (prGetBodyPosition b2)))
                   b2.angularVelocity))
               (prVector2Add b1.velocity
                 (prVector2ScalarMultiply
                   (prVector2LeftNormal
                     (prVector2Subtract (cget ctx.contacts 0).point (prGetBodyPosition b1)))
                   b1.angularVelocity)))
             ctx.direction)
          + -((24/100 : ℚ) * inverseDt) * min 0 (-(cget ctx.contacts 0).depth + (1/100 : ℚ)))
        / (b1.invMass + b2.invMass
            + b1.invInertia *
                (prVector2Cross
                  (prVector2Subtract (cget ctx.contacts 0).point (prGetBodyPosition b1))
                  ctx.direction) ^ 2
            + b2.invInertia *
                (prVector2Cross
                  (prVector2Subtract (cget ctx.contacts 0).point (prGetBodyPosition b2))
                  ctx.direction) ^ 2) ∧
    (solveContactNormalPhase b1 b2 ctx.direction ctx.restitution (cget ctx.contacts 0) inverseDt).1
      = prApplyImpulseToBody b1
          (prVector2Subtract (cget ctx.contacts 0).point (prGetBodyPosition b1))
          (prVector2Negate (prVector2ScalarMultiply ctx.direction
            (solveContactNormalPhase b1 b2 ctx.direction ctx.restitution
              (cget ctx.contacts 0) inverseDt).2.2.cache.normalScalar)) ∧
    (solveContactNormalPhase b1 b2 ctx.direction ctx.restitution (cget ctx.contacts 0) inverseDt).2.1
      = prApplyImpulseToBody b2
          (prVector2Subtract (cget ctx.contacts 0).point (prGetBodyPosition b2))
          (prVector2ScalarMultiply ctx.direction
            (solveContactNormalPhase b1 b2 ctx.direction ctx.restitution
              (cget ctx.contacts 0) inverseDt).2.2.cache.normalScalar) := by
  refine ⟨?_, rfl, rfl⟩
  unfold frResolveCollision
  rw [if_neg hmass, hcount, show List.range 1 = [0] from rfl, List.foldl_cons,
    List.foldl_nil]
  unfold frResolveStep
  dsimp only
  rw [if_neg hsep, cget_set hlen, tangentPhase_normalScalar]
  simp only [solveContactNormalPhase, pow_two, baumgarteFactor, baumgarteSlop]

set_option maxRecDepth 4000 in
/-- C3 amended, witnessed on the concrete scenario: the first iteration's
stored normal scalar equals the formula's value, `1`. -/
theorem C3_normal_impulse_overwrite_amended_witness :
    (cget (frResolveCollision c3Body1 c3Body2 c3Manifold 1).2.2.contacts 0).cache.normalScalar
      = 1 := by
  have h := (C3_normal_impulse_overwrite_amended c3Body1 c3Body2 c3Manifold 1
    (by with_unfolding_all decide) rfl (by with_unfolding_all decide)
    (by with_unfolding_all decide)).1
  rw [h]
  with_unfolding_all decide

end Proxima

namespace Proxima

/-! ## C8: static bodies and the public operations -/

/-- The public body/solver operations the claim quantifies over, acting on
a pair of bodies (`side = false` is body 1, `true` is body 2). -/
inductive prEngineOp where
  | setType (side : Bool) (t : prBodyType)
  | setFlags (side : Bool) (f : ℕ)
  | setShape (side : Bool) (s : Option prShape)
  | setPosition (side : Bool) (p : prVector2)
  | setAngle (side : Bool) (a : ℚ)
  | setGravityScale (side : Bool) (k : ℚ)
  | setVelocity (side : Bool) (v : prVector2)
  | setAngularVelocity (side : Bool) (w : ℚ)
  | clearForces (side : Bool)
  | applyForce (side : Bool) (point force : prVector2)
  | applyGravity (side : Bool) (g : prVector2)
  | applyImpulse (side : Bool) (point impulse : prVector2)
  | integrateVelocity (side : Bool) (dt : ℚ)
  | integratePosition (side : Bool) (dt : ℚ)
  | resolveCollision (ctx : prCollision) (inverseDt : ℚ)

/-- Apply a per-body engine function on the chosen side. -/
def onSide (side : Bool) (f : prBody → prBody) (st : prBody × prBody) :
    prBody × prBody :=
  if side then (st.1, f st.2) else (f st.1, st.2)

/-- One public operation, as the corresponding source function. -/
def applyEngineOp (st : prBody × prBody) (op : prEngineOp) : prBody × prBody :=
  match op with
  | .setType side t => onSide side (fun b => prSetBodyType b t) st
  | .setFlags side f => onSide side (fun b => prSetBodyFlags b f) st
  | .setShape side s => onSide side (fun b => prSetBodyShape b s) st
  | .setPosition side p => onSide side (fun b => prSetBodyPosition b p) st
  | .setAngle side a => onSide side (fun b => prSetBodyAngle b a) st
  | .setGravityScale side k => onSide side (fun b => prSetBodyGravityScale b k) st
  | .setVelocity side v => onSide side (fun b => prSetBodyVelocity b v) st
  | .setAngularVelocity side w => onSide side (fun b => prSetBodyAngularVelocity b w) st
  | .clearForces side => onSide side prClearBodyForces st
  | .applyForce side point force => onSide side (fun b => prApplyForceToBody b point force) st
  | .applyGravity side g => onSide side (fun b => prApplyGravityToBody b g) st
  | .applyImpulse side point impulse =>
    onSide side (fun b => prApplyImpulseToBody b point impulse) st
  | .integrateVelocity side dt => onSide side (fun b => prIntegrateForBodyVelocity b dt) st
  | .integratePosition side dt => onSide side (fun b => prIntegrateForBodyPosition b dt) st
  | .resolveCollision ctx inverseDt =>
    let r := frResolveCollision st.1 st.2 ctx inverseDt
    (r.1, r.2.1)

def prApplyEngineOps (st : prBody × prBody) (ops : List prEngineOp) : prBody × prBody :=
  ops.foldl applyEngineOp st

/-- The raw velocity setters, which the source leaves unguarded. -/
def isVelocitySetter : prEngineOp → Bool
  | .setVelocity _ _ => true
  | .setAngularVelocity _ _ => true
  | _ => false

/-- A static body is pinned: zero velocities and (as `prComputeBodyMass`
establishes) zero mass data, which is what keeps the guarded operations
from moving it. -/
def staticPinned (b : prBody) : Prop :=
  b.type = .static →
    b.velocity = zeroVec ∧ b.angularVelocity = 0 ∧ b.mass = 0 ∧ b.invMass = 0

lemma computeBodyMass_type (b : prBody) : (prComputeBodyMass b).type = b.type := by
  unfold prComputeBodyMass
  rcases htype : b.type <;> simp only [htype] <;>
    first
      | rfl
      | · repeat' split
          all_goals rfl

lemma staticPinned_computeBodyMass (b : prBody) : staticPinned (prComputeBodyMass b) := by
  intro h
  rw [computeBodyMass_type] at h
  simp [prComputeBodyMass, h]

end Proxima

namespace Proxima

lemma staticPinned_applyImpulse {b : prBody} (h : staticPinned b)
    (p j : prVector2) : staticPinned (prApplyImpulseToBody b p j) := by
  unfold prApplyImpulseToBody
  split
  · exact h
  · rename_i hg
    intro ht
    exact absurd (le_of_eq (h ht).2.2.2) hg

lemma staticPinned_applyForce {b : prBody} (h : staticPinned b)
    (p f : prVector2) : staticPinned (prApplyForceToBody b p f) := by
  unfold prApplyForceToBody
  split
  · exact h
  · exact fun ht => h ht

lemma staticPinned_applyGravity {b : prBody} (h : staticPinned b)
    (g : prVector2) : staticPinned (prApplyGravityToBody b g) := by
  unfold prApplyGravityToBody
  split
  · exact h
  · exact fun ht => h ht

lemma staticPinned_integrateVelocity {b : prBody} (h : staticPinned b)
    (dt : ℚ) : staticPinned (prIntegrateForBodyVelocity b dt) := by
  unfold prIntegrateForBodyVelocity
  split
  · exact h
  · rename_i hg
    intro ht
    exact absurd (Or.inl (le_of_eq (h ht).2.2.2)) hg

lemma staticPinned_integratePosition {b : prBody} (h : staticPinned b)
    (dt : ℚ) : staticPinned (prIntegrateForBodyPosition b dt) := by
  unfold prIntegrateForBodyPosition
  split
  · exact h
  · rename_i hg
    intro ht
    exact absurd (Or.inl ht) hg

lemma staticPinned_normalPhase {b1 b2 : prBody} (h1 : staticPinned b1)
    (h2 : staticPinned b2) (d : prVector2) (e : ℚ) (c : prContact) (idt : ℚ) :
    staticPinned (solveContactNormalPhase b1 b2 d e c idt).1 ∧
    staticPinned (solveContactNormalPhase b1 b2 d e c idt).2.1 :=
  ⟨staticPinned_applyImpulse h1 _ _, staticPinned_applyImpulse h2 _ _⟩

lemma staticPinned_tangentPhase {b1 b2 : prBody} (h1 : staticPinned b1)
    (h2 : staticPinned b2) (d : prVector2) (f : ℚ) (c : prContact) :
    staticPinned (solveContactTangentPhase b1 b2 d f c).1 ∧
    staticPinned (solveContactTangentPhase b1 b2 d f c).2.1 :=
  ⟨staticPinned_applyImpulse h1 _ _, staticPinned_applyImpulse h2 _ _⟩

lemma staticPinned_frResolveStep (idt : ℚ) {st : prBody × prBody × prCollision}
    (h1 : staticPinned st.1) (h2 : staticPinned st.2.1) (i : ℕ) :
    staticPinned (frResolveStep idt st i).1 ∧
    staticPinned (frResolveStep idt st i).2.1 := by
  unfold frResolveStep
  dsimp only
  split
  · exact ⟨h1, h2⟩
  · have hn := staticPinned_normalPhase h1 h2 st.2.2.direction st.2.2.restitution
      (cget st.2.2.contacts i) idt
    exact staticPinned_tangentPhase hn.1 hn.2 st.2.2.direction st.2.2.friction _

lemma staticPinned_foldSteps (idt : ℚ) (l : List ℕ) :
    ∀ (st : prBody × prBody × prCollision), staticPinned st.1 → staticPinned st.2.1 →
      staticPinned (l.foldl (frResolveStep idt) st).1 ∧
      staticPinned (l.foldl (frResolveStep idt) st).2.1 := by
  induction l with
  | nil => exact fun st h1 h2 => ⟨h1, h2⟩
  | cons i t ih =>
    intro st h1 h2
    rw [List.foldl_cons]
    have hs := staticPinned_frResolveStep idt h1 h2 i
    exact ih _ hs.1 hs.2

lemma staticPinned_frResolveCollision {b1 b2 : prBody} (h1 : staticPinned b1)
    (h2 : staticPinned b2) (ctx : prCollision) (idt : ℚ) :
    staticPinned (frResolveCollision b1 b2 ctx idt).1 ∧
    staticPinned (frResolveCollision b1 b2 ctx idt).2.1 := by
  unfold frResolveCollision
  split
  · dsimp only
    constructor
    · split
      · rename_i hb1
        exact fun _ => ⟨rfl, rfl, (h1 hb1).2.2⟩
      · exact h1
    · split
      · rename_i hb2
        exact fun _ => ⟨rfl, rfl, (h2 hb2).2.2⟩
      · exact h2
  · exact staticPinned_foldSteps idt _ (b1, b2, ctx) h1 h2

lemma staticPinned_onSide {st : prBody × prBody} (side : Bool)
    (f : prBody → prBody) (hf : ∀ b, staticPinned b → staticPinned (f b))
    (h1 : staticPinned st.1) (h2 : staticPinned st.2) :
    staticPinned (onSide side f st).1 ∧ staticPinned (onSide side f st).2 := by
  unfold onSide
  rcases side <;> simp only [Bool.false_eq_true, if_neg, if_pos, ite_true, ite_false]
  · exact ⟨hf _ h1, h2⟩
  · exact ⟨h1, hf _ h2⟩

lemma staticPinned_applyEngineOp {st : prBody × prBody} (op : prEngineOp)
    (hop : isVelocitySetter op = false)
    (h1 : staticPinned st.1) (h2 : staticPinned st.2) :
    staticPinned (applyEngineOp st op).1 ∧ staticPinned (applyEngineOp st op).2 := by
  rcases op with side | side | side | side | side | side | side | side | side |
    side | side | side | side | side | ctx
  case setType =>
    exact staticPinned_onSide side _ (fun b _ => staticPinned_computeBodyMass _) h1 h2
  case setFlags =>
    exact staticPinned_onSide side _ (fun b _ => staticPinned_computeBodyMass _) h1 h2
  case setShape =>
    exact staticPinned_onSide side _ (fun b _ => staticPinned_computeBodyMass _) h1 h2
  case setPosition =>
    exact staticPinned_onSide side _ (fun b hb ht => hb ht) h1 h2
  case setAngle =>
    exact staticPinned_onSide side _ (fun b hb ht => hb ht) h1 h2
  case setGravityScale =>
    exact staticPinned_onSide side _ (fun b hb ht => hb ht) h1 h2
  case setVelocity => exact absurd hop (by simp [isVelocitySetter])
  case setAngularVelocity => exact absurd hop (by simp [isVelocitySetter])
  case clearForces =>
    exact staticPinned_onSide side _ (fun b hb ht => hb ht) h1 h2
  case applyForce =>
    exact staticPinned_onSide side _ (fun b hb => staticPinned_applyForce hb _ _) h1 h2
  case applyGravity =>
    exact staticPinned_onSide side _ (fun b hb => staticPinned_applyGravity hb _) h1 h2
  case applyImpulse =>
    exact staticPinned_onSide side _ (fun b hb => staticPinned_applyImpulse hb _ _) h1 h2
  case integrateVelocity =>
    exact staticPinned_onSide side _ (fun b hb => staticPinned_integrateVelocity hb _) h1 h2
  case integratePosition =>
    exact staticPinned_onSide side _ (fun b hb => staticPinned_integratePosition hb _) h1 h2
  case resolveCollision =>
    exact staticPinned_frResolveCollision h1 h2 ctx _

lemma staticPinned_create {t : prBodyType} {p : prVector2} {b : prBody}
    (h : prCreateBody t p = some b) : staticPinned b := by
  unfold prCreateBody at h
  split at h
  · exact absurd h (by simp)
  · intro ht
    cases h
    exact ⟨rfl, rfl, rfl, rfl⟩

end Proxima

namespace Proxima

/-- C8 counterexample: `prSetBodyVelocity` has no body-type guard, so a
single public velocity-setter call gives a static body a nonzero
velocity. -/
theorem C8_static_velocity_setter_counterexample :
    (prCreateBody .static ⟨0, 0⟩).map
        (fun b =>
          let b' := prSetBodyVelocity b ⟨1, 0⟩
          (b'.type, b'.velocity))
      = some (.static, ⟨1, 0⟩) := rfl

/-- C8 as amended: excluding the raw velocity setters
(`prSetBodyVelocity`/`prSetBodyAngularVelocity`, which write the stored
velocity unconditionally), every sequence of the public operations — type
changes, shape/flag changes, transform setters, gravity application,
force/impulse application, collision resolution and both integrations —
keeps every static body at zero linear and angular velocity, starting from
any created pair of bodies. -/
theorem C8_static_bodies_motionless_amended (t1 t2 : prBodyType)
    (p1 p2 : prVector2) (b1 b2 : prBody)
    (h1 : prCreateBody t1 p1 = some b1)
    (h2 : prCreateBody t2 p2 = some b2)
    (ops : List prEngineOp)
    (hops : ∀ op ∈ ops, isVelocitySetter op = false) :
    ((prApplyEngineOps (b1, b2) ops).1.type = .static →
      (prApplyEngineOps (b1, b2) ops).1.velocity = zeroVec ∧
      (prApplyEngineOps (b1, b2) ops).1.angularVelocity = 0) ∧
    ((prApplyEngineOps (b1, b2) ops).2.type = .static →
      (prApplyEngineOps (b1, b2) ops).2.velocity = zeroVec ∧
      (prApplyEngineOps (b1, b2) ops).2.angularVelocity = 0) := by
  have key : ∀ (ops : List prEngineOp), (∀ op ∈ ops, isVelocitySetter op = false) →
      ∀ (st : prBody × prBody), staticPinned st.1 → staticPinned st.2 →
        staticPinned (prApplyEngineOps st ops).1 ∧
        staticPinned (prApplyEngineOps st ops).2 := by
    intro ops
    induction ops with
    | nil => exact fun _ st hs1 hs2 => ⟨hs1, hs2⟩
    | cons op t ih =>
      intro hops st hs1 hs2
      have hop : isVelocitySetter op = false := hops op (List.mem_cons_self _ _)
      have hstep := staticPinned_applyEngineOp op hop hs1 hs2
      have := ih (fun o ho => hops o (List.mem_cons_of_mem _ ho)) _ hstep.1 hstep.2
      exact this
  have hp := key ops hops (b1, b2) (staticPinned_create h1) (staticPinned_create h2)
  exact ⟨fun ht => ⟨(hp.1 ht).1, (hp.1 ht).2.1⟩, fun ht => ⟨(hp.2 ht).1, (hp.2 ht).2.1⟩⟩

/-- The concrete static pair and operation sequence of the C8 witness. -/
def c8StaticBody : prBody :=
  { blankBody with type := .static, tx := ⟨⟨0, 0⟩, 0, 1, 0⟩, gravityScale := 1 }

def c8Ops : List prEngineOp :=
  [.applyGravity false ⟨0, 98/10⟩, .applyImpulse false ⟨0, 0⟩ ⟨1, 0⟩,
   .integrateVelocity false 1, .resolveCollision c3Manifold 1,
   .integratePosition false 1, .setType true .dynamic]

/-- C8 amended, witnessed: after the concrete operation sequence the first
(static) body still has zero velocities. -/
theorem C8_static_bodies_motionless_amended_witness :
    (prApplyEngineOps (c8StaticBody, c8StaticBody) c8Ops).1.velocity = zeroVec ∧
    (prApplyEngineOps (c8StaticBody, c8StaticBody) c8Ops).1.angularVelocity = 0 :=
  (C8_static_bodies_motionless_amended .static .static ⟨0, 0⟩ ⟨0, 0⟩
      c8StaticBody c8StaticBody rfl rfl c8Ops
      (by intro op hop; fin_cases hop <;> rfl)).1
    (by with_unfolding_all decide)

end Proxima

namespace Proxima

/-! ## Raycasting (`collision.c`), with explicit null-pointer modelling -/

structure prRay where
  origin : prVector2
  direction : prVector2
  maxDistance : ℚ
  deriving DecidableEq, Repr

structure prRaycastHit where
  body : Option prBody
  point : prVector2
  normal : prVector2
  distance : ℚ
  inside : Bool
  deriving DecidableEq, Repr

/-- `prComputeIntersectionCircleLine`: the call site always passes a
non-null `&lambda`, so the written value is returned together with the
`bool` result. -/
def prComputeIntersectionCircleLine (center : prVector2) (radius : ℚ)
    (origin direction : prVector2) : ℚ × Bool :=
  let originToCenter := prVector2Subtract center origin
  let dot := prVector2Dot originToCenter direction
  let heightSqr := prVector2MagnitudeSqr originToCenter - dot * dot
  let baseSqr := radius * radius - heightSqr
  (dot - ratSqrt baseSqr, decide (0 ≤ dot ∧ 0 ≤ baseSqr))

/-- `prComputeIntersectionLines`: `lambda` is the current content of the
out-parameter, written only on the paths that write it in the source. -/
def prComputeIntersectionLines (origin1 direction1 origin2 direction2 : prVector2)
    (lambda : ℚ) : ℚ × Bool :=
  let rXs := prVector2Cross direction1 direction2
  let qp := prVector2Subtract origin2 origin1
  let qpXs := prVector2Cross qp direction2
  let qpXr := prVector2Cross qp direction1
  if rXs ≠ 0 then
    let inverseRxS := 1 / rXs
    let t := qpXs * inverseRxS
    let u := qpXr * inverseRxS
    if 0 ≤ t ∧ t ≤ 1 ∧ 0 ≤ u ∧ u ≤ 1 then (t, true) else (lambda, false)
  else
    if qpXr ≠ 0 then (lambda, false)
    else
      let rDr := prVector2Dot direction1 direction1
      let sDr := prVector2Dot direction2 direction1
      let inverseRdR := 1 / rDr
      let qpDr := prVector2Dot qp direction1
      let s0 := qpDr * inverseRdR
      let s1 := s0 + sDr * inverseRdR
      let t0 := if sDr < 0 then s1 else s0
      let t1 := if sDr < 0 then s0 else s1
      if (t0 < 0 ∧ t1 = 0) ∨ (t0 = 1 ∧ 1 < t1) then
        ((if t0 = 1 then (1 : ℚ) else 0), true)
      else (lambda, decide (0 ≤ t1 ∧ t0 ≤ 1))

/-- `prComputeRaycast`, with the out-pointer modelled explicitly:
`hitPtr = none` is a `NULL` pointer and `some h0` a pointer to `h0`.  The
result is `.error ()` exactly when the function dereferences a `NULL`
`raycastHit` (the polygon branch ends in
`return (!(raycastHit->inside) && (intersectionCount > 0))`, an
unconditional read through the pointer); otherwise `.ok` of the `bool`
result and the final pointee. -/
def prComputeRaycast (b : Option prBody) (ray : prRay)
    (hitPtr : Option prRaycastHit) : Except Unit (Bool × Option prRaycastHit) :=
  match b with
  | none => .ok (false, hitPtr)
  | some b =>
    let rayDir := prVector2Normalize ray.direction
    let s := prGetBodyShape b
    let tx := prGetBodyTransform b
    let type := prGetShapeType s
    if type = .circle then
      let r := prComputeIntersectionCircleLine tx.position (prGetCircleRadius s)
        ray.origin rayDir
      let lambda := r.1
      let result := decide (0 ≤ lambda ∧ lambda ≤ ray.maxDistance)
      let hitPtr' := hitPtr.map fun h0 =>
        let point := prVector2Add ray.origin (prVector2ScalarMultiply rayDir lambda)
        { h0 with
          body := some b
          point := point
          normal := prVector2LeftNormal (prVector2Subtract ray.origin point)
          distance := lambda
          inside := decide (lambda < 0) }
      .ok (result, hitPtr')
    else if type = .polygon then
      let vertices := prGetPolygonVertices s
      let st :=
        (List.range vertices.length).foldl
          (fun (st : ℚ × ℚ × ℕ × Option prRaycastHit) i =>
            let lambda := st.1
            let minLambda := st.2.1
            let count := st.2.2.1
            let hp := st.2.2.2
            let j := if i = 0 then vertices.length - 1 else i - 1
            let v1 := prVector2Transform (vget vertices i) tx
            let v2 := prVector2Transform (vget vertices j) tx
            let edgeVector := prVector2Subtract v1 v2
            let r := prComputeIntersectionLines ray.origin rayDir v2 edgeVector lambda
            let lambda' := r.1
            if r.2 = true ∧ lambda' ≤ ray.maxDistance then
              if lambda' < minLambda then
                let hp' := hp.map fun h0 =>
                  { h0 with
                    point := prVector2Add ray.origin
                      (prVector2ScalarMultiply rayDir lambda')
                    normal := prVector2LeftNormal edgeVector }
                (lambda', lambda', count + 1, hp')
              else (lambda', minLambda, count + 1, hp)
            else (lambda', minLambda, count, hp))
          (fltMax, fltMax, 0, hitPtr)
      let intersectionCount := st.2.2.1
      match hitPtr with
      | none => .error ()
      | some _ =>
        let hp' := st.2.2.2.map fun h0 =>
          { h0 with
            body := some b
            inside := decide (intersectionCount % 2 = 1) }
        .ok (decide (¬intersectionCount % 2 = 1 ∧ 0 < intersectionCount), hp')
    else .ok (false, hitPtr)

/-- Whether a modelled call is free of null-pointer dereference. -/
def exceptDefined : Except Unit (Bool × Option prRaycastHit) → Bool
  | .ok _ => true
  | .error _ => false

/-- C10: with a `NULL` output pointer, `prComputeRaycast` is well-defined
on a circle-shaped body (every write through `raycastHit` is guarded), but
on a polygon-shaped body the final `return` expression reads
`raycastHit->inside` unconditionally, so the call dereferences the null
pointer. -/
theorem C10_raycast_null_hit_totality (b : prBody) (ray : prRay) :
    (prGetShapeType (prGetBodyShape b) = .circle →
      exceptDefined (prComputeRaycast (some b) ray none) = true) ∧
    (prGetShapeType (prGetBodyShape b) = .polygon →
      prComputeRaycast (some b) ray none = .error ()) := by
  constructor
  · intro hc
    unfold prComputeRaycast
    dsimp only
    rw [if_pos hc]
    rfl
  · intro hp
    unfold prComputeRaycast
    dsimp only
    rw [if_neg (by rw [hp]; exact fun h => nomatch h), if_pos hp]

/-- The concrete bodies and ray of the C10 witness. -/
def c10CircleBody : prBody :=
  (prCreateBodyFromShape .dynamic ⟨5, 0⟩ (prCreateCircle ⟨1, 0, 0⟩ 1)).getD blankBody

def c10PolyBody : prBody :=
  (prCreateBodyFromShape .dynamic ⟨5, 0⟩ (prCreateRectangle ⟨1, 0, 0⟩ 2 2)).getD blankBody

def c10Ray : prRay := ⟨⟨0, 0⟩, ⟨1, 0⟩, 10⟩

/-- C10 witness: a unit circle body and a square body at (5, 0), probed
with a concrete ray and a null hit pointer. -/
theorem C10_raycast_null_hit_totality_witness :
    exceptDefined (prComputeRaycast (some c10CircleBody) c10Ray none) = true ∧
    prComputeRaycast (some c10PolyBody) c10Ray none = .error () := by
  constructor
  · exact (C10_raycast_null_hit_totality c10CircleBody c10Ray).1
      (by with_unfolding_all decide)
  · exact (C10_raycast_null_hit_totality c10PolyBody c10Ray).2
      (by with_unfolding_all decide)

end Proxima

namespace Proxima

/-! ## `world.c` (`part_008`): the world orchestrator

Bodies are stored in a list; the stb_ds hash map keyed by body-pointer
pairs becomes an association list keyed by the `(smaller, larger)` body
indices the pre-step callback builds its pairs from.  `hmputs` replaces in
place or appends; `hmdel` swap-deletes with the last entry, as stb_ds
does. -/

structure prContactCacheEntry where
  key : ℕ × ℕ
  value : prCollision
  deriving DecidableEq, Repr

def defaultCacheEntry : prContactCacheEntry := ⟨(0, 0), blankCollision⟩

def hmget (cache : List prContactCacheEntry) (key : ℕ × ℕ) : Option prCollision :=
  (cache.find? (fun e => decide (e.key = key))).map (fun e => e.value)

def hmputs : List prContactCacheEntry → prContactCacheEntry → List prContactCacheEntry
  | [], e => [e]
  | a :: t, e => if a.key = e.key then e :: t else a :: hmputs t e

def hmdel (cache : List prContactCacheEntry) (key : ℕ × ℕ) : List prContactCacheEntry :=
  match cache.findIdx? (fun e => decide (e.key = key)) with
  | none => cache
  | some i => (cache.set i (cache.getLastD defaultCacheEntry)).dropLast

/-- `prCollisionHandler`: optional pre/post-step callbacks; a callback may
rewrite the manifold it is handed. -/
structure prCollisionHandler where
  preStep : Option ((ℕ × ℕ) → prCollision → prCollision)
  postStep : Option ((ℕ × ℕ) → prCollision → prCollision)

structure prWorld where
  gravity : prVector2
  bodies : List prBody
  hash : prSpatialHash
  cache : List prContactCacheEntry
  handler : prCollisionHandler
  accumulator : ℚ
  timestamp : ℚ

/-- The contact-id matching loop of `prPreStepHashQueryCallback` (cache
hit): for each live contact of the fresh manifold, copy the accumulated
impulse scalars from the first old contact with the same id, or zero
them. -/
def matchCachedContacts (old c : prCollision) : List prContact :=
  (List.range c.contacts.length).map fun i =>
    let ct := cget c.contacts i
    if i < c.count then
      match (old.contacts.take old.count).find? (fun oc => decide (oc.id = ct.id)) with
      | some oc =>
        { ct with cache := { ct.cache with
            normalScalar := oc.cache.normalScalar
            tangentScalar := oc.cache.tangentScalar } }
      | none =>
        { ct with cache := { ct.cache with normalScalar := 0, tangentScalar := 0 } }
    else ct

/-- `prPreStepHashQueryCallback` (`world.c` = `part_008`): reject
`otherBodyIndex <= bodyIndex` and pairs with both inverse masses zero; on
no collision evict the pair's cache entry; on a cache hit keep the stored
friction/restitution and warm-start matching contacts; on a miss combine
the materials — friction as the arithmetic mean, restitution as the
minimum, each clamped to zero from below — and insert. -/
def prPreStepHashQueryCallback (w : prWorld) (bodyIndex : ℕ) (otherBodyIndex : ℤ) :
    prWorld × Bool :=
  if otherBodyIndex ≤ (bodyIndex : ℤ) then (w, false)
  else
    let b1 := w.bodies.getD bodyIndex blankBody
    let b2 := w.bodies.getD otherBodyIndex.toNat blankBody
    if prGetBodyInverseMass b1 + prGetBodyInverseMass b2 ≤ 0 then (w, false)
    else
      let key : ℕ × ℕ := (bodyIndex, otherBodyIndex.toNat)
      let s1 := prGetBodyShape b1
      let s2 := prGetBodyShape b2
      match prComputeCollision s1 (prGetBodyTransform b1) s2 (prGetBodyTransform b2)
          blankCollision with
      | none => ({ w with cache := hmdel w.cache key }, false)
      | some collision =>
        let collision :=
          match hmget w.cache key with
          | some entryValue =>
            let c := { collision with
                       friction := entryValue.friction
                       restitution := entryValue.restitution }
            { c with contacts := matchCachedContacts entryValue c }
          | none =>
            let f := (1 / 2 : ℚ) * (prGetShapeFriction s1 + prGetShapeFriction s2)
            let r := min (prGetShapeRestitution s1) (prGetShapeRestitution s2)
            { collision with
              friction := if f ≤ 0 then 0 else f
              restitution := if r ≤ 0 then 0 else r }
        ({ w with cache := hmputs w.cache ⟨key, collision⟩ }, true)

/-- Modelled from the spec: `prApplyAccumulatedImpulses` is declared in
`proxima.h` and called by `prStepWorld` in `world.c`, but its definition
(`rigid-body.c`) is not among the repository's files.  Spec §4.6 (warm
starting): "`cache.normalImpulse` and `cache.tangentImpulse` from the
previous step are re-applied once, before the iterative loop, by invoking
impulse application with the cached magnitudes." -/
def prApplyAccumulatedImpulses (b1 b2 : prBody) (ctx : prCollision) :
    prBody × prBody :=
  (List.range ctx.count).foldl
    (fun st i =>
      let contact := cget ctx.contacts i
      let relPosition1 := prVector2Subtract contact.point (prGetBodyPosition st.1)
      let relPosition2 := prVector2Subtract contact.point (prGetBodyPosition st.2)
      let tangent : prVector2 := ⟨ctx.direction.y, -ctx.direction.x⟩
      let impulse :=
        prVector2Add
          (prVector2ScalarMultiply ctx.direction contact.cache.normalScalar)
          (prVector2ScalarMultiply tangent contact.cache.tangentScalar)
      (prApplyImpulseToBody st.1 relPosition1 (prVector2Negate impulse),
       prApplyImpulseToBody st.2 relPosition2 impulse))
    (b1, b2)

/-- `prPreStepWorld`: insert every body's AABB, then query per body,
running the pre-step callback over each reported candidate in order. -/
def prPreStepWorld (junk junkNeg : ℤ) (w : prWorld) : prWorld :=
  let hash' :=
    (List.range w.bodies.length).foldl
      (fun h i => prInsertToSpatialHash h (prGetBodyAABB (w.bodies.getD i blankBody)) i)
      w.hash
  let w := { w with hash := hash' }
  (List.range w.bodies.length).foldl
    (fun w i =>
      (prQuerySpatialHash w.hash (prGetBodyAABB (w.bodies.getD i blankBody))
          junk junkNeg).foldl
        (fun w other => (prPreStepHashQueryCallback w i other).1) w)
    w

/-- `prPostStepWorld`: clear every body's forces, clear the hash. -/
def prPostStepWorld (w : prWorld) : prWorld :=
  { w with
    bodies := w.bodies.map prClearBodyForces
    hash := prClearSpatialHash w.hash }

/-- Warm-start one cache entry against its bodies (`prStepWorld`'s second
loop body; the bodies are looked up through the pair key). -/
def warmStartEntry (w : prWorld) (e : prContactCacheEntry) : prWorld :=
  let b1 := w.bodies.getD e.key.1 blankBody
  let b2 := w.bodies.getD e.key.2 blankBody
  let r := prApplyAccumulatedImpulses b1 b2 e.value
  { w with bodies := (w.bodies.set e.key.1 r.1).set e.key.2 r.2 }

/-- One `prResolveCollision` call on cache entry `j` (the solver loop
body); the mutated bodies and manifold are written back.  The solver
itself is `frResolveCollision`, the in-repository revision of the contact
solver. -/
def solveCacheEntry (inverseDt : ℚ) (w : prWorld) (j : ℕ) : prWorld :=
  let e := w.cache.getD j defaultCacheEntry
  let b1 := w.bodies.getD e.key.1 blankBody
  let b2 := w.bodies.getD e.key.2 blankBody
  let r := frResolveCollision b1 b2 e.value inverseDt
  { w with
    bodies := (w.bodies.set e.key.1 r.1).set e.key.2 r.2.1
    cache := w.cache.set j { e with value := r.2.2 } }

/-- `prStepWorld` (`part_008`): no-op for `dt <= 0`; otherwise pre-step →
pre-step handler → gravity + velocity integration → warm start →
12 solver iterations → position integration → post-step handler →
force/hash clearing. -/
def prStepWorld (junk junkNeg : ℤ) (w : prWorld) (dt : ℚ) : prWorld :=
  if dt ≤ 0 then w
  else
    let w := prPreStepWorld junk junkNeg w
    let w :=
      match w.handler.preStep with
      | none => w
      | some f => { w with cache := w.cache.map (fun (e : prContactCacheEntry) => { e with value := f e.key e.value }) }
    let w := { w with bodies := w.bodies.map (fun b =>
      prIntegrateForBodyVelocity (prApplyGravityToBody b w.gravity) dt) }
    let w := w.cache.foldl warmStartEntry w
    let inverseDt := 1 / dt
    let w :=
      (List.range iterationCount).foldl
        (fun w _ => (List.range w.cache.length).foldl (solveCacheEntry inverseDt) w) w
    let w := { w with bodies := w.bodies.map (fun b => prIntegrateForBodyPosition b dt) }
    let w :=
      match w.handler.postStep with
      | none => w
      | some f => { w with cache := w.cache.map (fun (e : prContactCacheEntry) => { e with value := f e.key e.value }) }
    prPostStepWorld w

/-- The `for (; accumulator >= dt; accumulator -= dt) prStepWorld(w, dt)`
loop, with explicit fuel (each pass subtracts `dt > 0`, so
`⌊accumulator/dt⌋ + 1` passes always reach the exit test). -/
def stepLoopFuel (junk junkNeg : ℤ) : ℕ → prWorld → ℚ → prWorld
  | 0, w, _ => w
  | fuel + 1, w, dt =>
    if dt ≤ w.accumulator then
      let w' := prStepWorld junk junkNeg w dt
      stepLoopFuel junk junkNeg fuel { w' with accumulator := w'.accumulator - dt } dt
    else w

/-- `prUpdateWorld` (`part_008`, identical in the other two revisions):
no-op for `dt <= 0`; otherwise the source reads the clock into
`currentTime`, but the next line `double elapsedTime = currentTime =
w->timestamp;` **assigns** (`=`, not `-`) the old timestamp to
`currentTime`, so the clock reading (`now`) is discarded: `elapsedTime`
becomes the old timestamp, the timestamp is rewritten with its own old
value, and the old timestamp's value is added to the accumulator.  Then
the fixed-step loop drains the accumulator. -/
def prUpdateWorld (junk junkNeg : ℤ) (w : prWorld) (now dt : ℚ) : prWorld :=
  if dt ≤ 0 then w
  else
    let _currentTime := now
    let currentTime := w.timestamp
    let elapsedTime := currentTime
    let w := { w with
               timestamp := currentTime
               accumulator := w.accumulator + elapsedTime }
    stepLoopFuel junk junkNeg ((⌊w.accumulator / dt⌋).toNat + 1) w dt

end Proxima

namespace Proxima

/-- Clamping a value up to zero if non-positive is taking a max with 0. -/
lemma ifClampEqMax (x : ℚ) : (if x ≤ 0 then (0 : ℚ) else x) = max 0 x := by
  split
  · exact (max_eq_left (by assumption)).symm
  · exact (max_eq_right (le_of_not_le (by assumption))).symm

/-- After `hmputs`, looking up the inserted key yields the inserted value. -/
lemma hmget_hmputs (cache : List prContactCacheEntry) (k : ℕ × ℕ) (v : prCollision) :
    hmget (hmputs cache ⟨k, v⟩) k = some v := by
  induction cache with
  | nil => simp [hmputs, hmget, List.find?]
  | cons a t ih =>
    unfold hmputs
    split
    · rename_i heq
      simp [hmget, List.find?]
    · rename_i hne
      unfold hmget at ih ⊢
      simp only [List.find?]
      rw [show (decide (a.key = k)) = false from decide_eq_false hne]
      exact ih

/-- **C1** — For every pair of colliding bodies whose manifold is inserted
into the contact cache on a cache miss, the stored friction equals the
arithmetic mean of the two shapes' friction coefficients and the stored
restitution equals the minimum of the two shapes' restitutions, each
clamped up to zero if negative; on a cache hit the previously stored
friction and restitution are kept unchanged.  Stated on
`prPreStepHashQueryCallback` for any world, any body index pair that
passes the ordering guard, any pair with positive inverse-mass sum and any
computed manifold. -/
theorem C1_contact_cache_material_combination
    (w : prWorld) (i : ℕ) (o : ℤ)
    (hio : (i : ℤ) < o)
    (hm : ¬ (prGetBodyInverseMass (w.bodies.getD i blankBody) +
        prGetBodyInverseMass (w.bodies.getD o.toNat blankBody) ≤ 0))
    (c : prCollision)
    (hc : prComputeCollision (prGetBodyShape (w.bodies.getD i blankBody))
        (prGetBodyTransform (w.bodies.getD i blankBody))
        (prGetBodyShape (w.bodies.getD o.toNat blankBody))
        (prGetBodyTransform (w.bodies.getD o.toNat blankBody)) blankCollision = some c) :
    (hmget w.cache (i, o.toNat) = none →
      (hmget (prPreStepHashQueryCallback w i o).1.cache (i, o.toNat)).map
          (fun v => v.friction) =
        some (max 0 ((1 / 2) *
          (prGetShapeFriction (prGetBodyShape (w.bodies.getD i blankBody)) +
           prGetShapeFriction (prGetBodyShape (w.bodies.getD o.toNat blankBody))))) ∧
      (hmget (prPreStepHashQueryCallback w i o).1.cache (i, o.toNat)).map
          (fun v => v.restitution) =
        some (max 0
          (min (prGetShapeRestitution (prGetBodyShape (w.bodies.getD i blankBody)))
               (prGetShapeRestitution (prGetBodyShape (w.bodies.getD o.toNat blankBody)))))) ∧
    (∀ old, hmget w.cache (i, o.toNat) = some old →
      (hmget (prPreStepHashQueryCallback w i o).1.cache (i, o.toNat)).map
          (fun v => v.friction) = some old.friction ∧
      (hmget (prPreStepHashQueryCallback w i o).1.cache (i, o.toNat)).map
          (fun v => v.restitution) = some old.restitution) := by
  unfold prPreStepHashQueryCallback
  rw [if_neg (not_le.mpr hio)]
  dsimp only
  rw [if_neg hm, hc]
  constructor
  · intro hmiss
    rw [hmiss]
    dsimp only
    rw [hmget_hmputs]
    simp only [Option.map_some']
    constructor
    · rw [ifClampEqMax]
    · rw [ifClampEqMax]
  · intro old hold
    rw [hold]
    dsimp only
    rw [hmget_hmputs]
    exact ⟨rfl, rfl⟩

/-- Two overlapping unit circles (centres one unit apart), density 1,
frictions 1/2 and 3/10, restitutions 3/10 and 7/10, in an otherwise empty
world with an empty contact cache. -/
def c1Shape1 : Option prShape := prCreateCircle ⟨1, 1/2, 3/10⟩ 1

def c1Shape2 : Option prShape := prCreateCircle ⟨1, 3/10, 7/10⟩ 1

def c1BodyA : prBody := (prCreateBodyFromShape .dynamic ⟨0, 0⟩ c1Shape1).getD blankBody

def c1BodyB : prBody := (prCreateBodyFromShape .dynamic ⟨1, 0⟩ c1Shape2).getD blankBody

def c1World : prWorld :=
  ⟨⟨0, 0⟩, [c1BodyA, c1BodyB], ⟨1, fun _ => []⟩, [], ⟨none, none⟩, 0, 0⟩

/-- The manifold `prComputeCollision` produces for the two circles of
`c1World` (checked by kernel evaluation while discharging the collision
hypothesis below). -/
def c1Collision : prCollision :=
  { friction := 0
    restitution := 0
    direction := ⟨1, 0⟩
    contacts := [⟨0, ⟨1, 0⟩, 1, ⟨0, 0, 0, 0⟩⟩, ⟨0, ⟨1, 0⟩, 1, ⟨0, 0, 0, 0⟩⟩]
    count := 1 }

/-- Witness for C1: in `c1World` (empty cache, so a cache miss) the entry
stored for the pair `(0, 1)` carries friction `(1/2 + 3/10)/2 = 2/5` and
restitution `min(3/10, 7/10) = 3/10`. -/
theorem C1_contact_cache_material_combination_witness :
    (hmget (prPreStepHashQueryCallback c1World 0 1).1.cache (0, 1)).map
        (fun v => v.friction) =
      some (max 0 ((1 / 2) *
        (prGetShapeFriction (prGetBodyShape (c1World.bodies.getD 0 blankBody)) +
         prGetShapeFriction (prGetBodyShape (c1World.bodies.getD (1 : ℤ).toNat blankBody))))) ∧
    (hmget (prPreStepHashQueryCallback c1World 0 1).1.cache (0, 1)).map
        (fun v => v.restitution) =
      some (max 0
        (min (prGetShapeRestitution (prGetBodyShape (c1World.bodies.getD 0 blankBody)))
             (prGetShapeRestitution (prGetBodyShape (c1World.bodies.getD (1 : ℤ).toNat blankBody))))) := by
  exact (C1_contact_cache_material_combination c1World 0 1 (by decide)
    (by with_unfolding_all decide) c1Collision (by with_unfolding_all decide)).1 rfl

/-- An empty world whose last-step timestamp is 5 seconds and whose
accumulator is empty. -/
def c2World : prWorld := ⟨⟨0, 0⟩, [], ⟨1, fun _ => []⟩, [], ⟨none, none⟩, 0, 5⟩

/-- **C2** — the claim says `update` adds the wall-clock time elapsed since
the previous call (here `7 - 5 = 2`) to the accumulator and records the new
timestamp (`7`).  Because of the assignment `elapsedTime = currentTime =
w->timestamp`, the code instead discards the clock reading (`now = 7`): it
adds the **old timestamp itself** (`5`) to the accumulator and rewrites the
timestamp with its own old value (`5`). -/
theorem C2_update_elapsed_time_failing_input :
    (prUpdateWorld 0 0 c2World 7 10).accumulator = 5 ∧
    (prUpdateWorld 0 0 c2World 7 10).timestamp = 5 := by
  constructor
  · with_unfolding_all decide
  · with_unfolding_all decide

/-- **C9** — for every world state and every `dt ≤ 0`, `prStepWorld` and
`prUpdateWorld` are no-ops: the returned world is the input world, so in
particular its bodies, contact cache, accumulator and timestamp are
unchanged. -/
theorem C9_nonpositive_dt_noop (junk junkNeg : ℤ) (w : prWorld) (now dt : ℚ)
    (h : dt ≤ 0) :
    prStepWorld junk junkNeg w dt = w ∧ prUpdateWorld junk junkNeg w now dt = w := by
  constructor
  · unfold prStepWorld
    rw [if_pos h]
  · unfold prUpdateWorld
    rw [if_pos h]

/-- An arbitrary concrete world for the C9 witness. -/
def c9World : prWorld := ⟨⟨0, 98/10⟩, [c1BodyA], ⟨1, fun _ => []⟩, [], ⟨none, none⟩, 7, 3⟩

/-- Witness for C9 at `dt = 0`. -/
theorem C9_nonpositive_dt_noop_witness :
    prStepWorld 0 0 c9World 0 = c9World ∧ prUpdateWorld 0 0 c9World 3 0 = c9World :=
  C9_nonpositive_dt_noop 0 0 c9World 3 0 le_rfl

end Proxima
